import Mathlib

/-!
# StatComm, GoF_RooStat/testGoF.C: the toy study of the goodness-of-fit tests

`testGoF()` fits a model to a dataset, runs the tests of `RooGoF` on it, and then loops
over pseudo-datasets ("toys"): each trial resets the model to the best-fit parameters,
generates a dataset, runs every test before and after a fit, and fills one entry of a
`TTree`.

The embedding follows the source line by line.

* The collaborators that are not in `testGoF.C` are fields of `Externals`: RooFit's
  `generate` and `fitTo`, and the test methods of the class `RooGoF`, whose file
  `RooGoF.C` is included by `testGoF.C` but is not among the sources.  Every theorem on
  the toy study holds for all values of these fields.
* C++ state is passed explicitly: `State` holds the variables of `testGoF()` that live
  across the loop.  `log` is a ghost field: it records the operations of the loop in
  the order in which they are performed.
* `double` is a type parameter `D`: `testGoF()` stores and copies doubles and never
  computes with them.  `int` is `Int`; the only arithmetic on it is `i++` below
  `ntoys`, which cannot leave the range of `int`.
* Plotting, the text printed by `RooPlot::Print`, and the writing of the tree to
  `toys.root` are left out; the tree itself is the field `tr`.
-/

namespace StatComm

/-! ## The output tree -/

/-- The 26 doubles declared at lines 150-161, the targets of the branch addresses. -/
inductive Var
  | pval_AD_before | ts_AD_before
  | pval_AD_after | ts_AD_after | pval_AD_after_toys
  | pval_KS_before | ts_KS_before
  | pval_KS_after | ts_KS_after | pval_KS_after_toys
  | pval_BCChi2_before | ts_BCChi2_before
  | pval_BCChi2_after | ts_BCChi2_after
  | pval_RooFitChi2_before | ts_RooFitChi2_before
  | pval_RooFitChi2_after | ts_RooFitChi2_after
  | pval_PearsonChi2_before | ts_PearsonChi2_before
  | pval_PearsonChi2_after | ts_PearsonChi2_after
  | pval_NeymanChi2_before | ts_NeymanChi2_before
  | pval_NeymanChi2_after | ts_NeymanChi2_after
  deriving DecidableEq, Repr

/-- One call `tr->Branch(name, address, leaflist)`. -/
structure Branch where
  name : String
  address : Var
  leaflist : String
  deriving DecidableEq, Repr

/-- The branches of the tree `toys_ts`, lines 163-188, in source order. -/
def branches : List Branch :=
  [ ⟨"pval_AD_before", .pval_AD_before, "pval_AD_before/D"⟩,
    ⟨"ts_AD_before", .ts_AD_before, "ts_AD_before/D"⟩,
    ⟨"pval_AD_after", .pval_AD_after, "pval_AD_after/D"⟩,
    ⟨"pval_AD_after_toys", .pval_AD_after_toys, "pval_AD_after_toys/D"⟩,
    ⟨"ts_AD_after", .ts_AD_after, "ts_AD_after/D"⟩,
    ⟨"pval_KS_before", .pval_KS_before, "pval_KS_before/D"⟩,
    ⟨"ts_KS_before", .ts_KS_before, "ts_KS_before/D"⟩,
    ⟨"pval_KS_after", .pval_KS_after, "pval_KS_after/D"⟩,
    ⟨"pval_KS_after_toys", .pval_KS_after_toys, "pval_KS_after_toys/D"⟩,
    ⟨"ts_KS_after", .ts_KS_after, "ts_KS_after/D"⟩,
    ⟨"pval_BCChi2_before", .pval_BCChi2_before, "pval_BCChi2_before/D"⟩,
    ⟨"ts_BCChi2_before", .ts_BCChi2_before, "ts_BCChi2_before/D"⟩,
    ⟨"pval_BCChi2_after", .pval_BCChi2_after, "pval_BCChi2_after/D"⟩,
    ⟨"ts_BCChi2_after", .ts_BCChi2_after, "ts_BCChi2_after/D"⟩,
    ⟨"pval_RooFitChi2_before", .pval_RooFitChi2_before, "pval_RooFitChi2_before/D"⟩,
    ⟨"ts_RooFitChi2_before", .ts_RooFitChi2_before, "ts_RooFitChi2_before/D"⟩,
    ⟨"pval_RooFitChi2_after", .pval_RooFitChi2_after, "pval_RooFitChi2_after/D"⟩,
    ⟨"ts_RooFitChi2_after", .ts_RooFitChi2_after, "ts_RooFitChi2_after/D"⟩,
    ⟨"pval_PearsonChi2_before", .pval_PearsonChi2_before, "pval_PearsonChi2_before/D"⟩,
    ⟨"ts_PearsonChi2_before", .ts_PearsonChi2_before, "ts_PearsonChi2_before/D"⟩,
    ⟨"pval_PearsonChi2_after", .pval_PearsonChi2_after, "pval_PearsonChi2_after/D"⟩,
    ⟨"ts_PearsonChi2_after", .ts_PearsonChi2_after, "ts_PearsonChi2_after/D"⟩,
    ⟨"pval_NeymanChi2_before", .pval_NeymanChi2_before, "pval_NeymanChi2_before/D"⟩,
    ⟨"ts_NeymanChi2_before", .ts_NeymanChi2_before, "ts_NeymanChi2_before/D"⟩,
    ⟨"pval_NeymanChi2_after", .pval_NeymanChi2_after, "pval_NeymanChi2_after/D"⟩,
    ⟨"ts_NeymanChi2_after", .ts_NeymanChi2_after, "ts_NeymanChi2_after/D"⟩ ]

/-- An entry of the tree: per branch, its name and the value stored. -/
abbrev Row (D : Type) : Type := List (String × D)

/-- `tr->Fill()`: a new entry that holds, for every branch, the value now found at the
branch address. -/
def Fill {D : Type} (vars : Var → D) : Row D :=
  branches.map fun b => (b.name, vars b.address)

/-- The value an entry holds under a column name. -/
def Row.get {D : Type} (row : Row D) (column : String) : Option D :=
  List.lookup column row

/-! ## RooPlot and RooGoF as far as `testGoF()` configures them -/

/-- What a `RooPlot` frame holds for the tests: the histogram `h_modelData` of the
dataset plotted on it, and the curve `model_Norm[x]` of the model, drawn for the
parameter values at the time of plotting and normalised to the data on the frame. -/
structure RooPlot (P DS : Type) where
  h_modelData : Option DS
  model_Norm : Option (P × Option DS)

/-- `x.frame(...)`: an empty frame. -/
def frame {P DS : Type} : RooPlot P DS :=
  ⟨none, none⟩

/-- `data->plotOn(frame)`. -/
def RooPlot.plotOn_data {P DS : Type} (f : RooPlot P DS) (data : DS) : RooPlot P DS :=
  { f with h_modelData := some data }

/-- `model.plotOn(frame)`, with the model at the parameter values `m`. -/
def RooPlot.plotOn_model {P DS : Type} (f : RooPlot P DS) (m : P) : RooPlot P DS :=
  { f with model_Norm := some (m, f.h_modelData) }

/-- A `RooGoF` object as `testGoF()` sets it up.  The binned constructor fills `hist`
and `curve`, the unbinned one `data` (it also takes the addresses of the model and of
`x`: the model is read when a test runs, so its parameter values are an argument of
the test).  The other fields are what the setters store. -/
structure RooGoF (P DS SD : Type) where
  hist : Option DS
  curve : Option (P × Option DS)
  data : Option DS
  range : Option (Int × Int)
  rebin : Option (Nat × Bool)
  ntoys : Option (Nat × Bool)
  sd_AD : Option SD
  sd_KS : Option SD

/-- `RooGoF(RooHist*, RooCurve*)`. -/
def RooGoF.ofHist {P DS SD : Type} (hist : Option DS) (curve : Option (P × Option DS)) :
    RooGoF P DS SD :=
  ⟨hist, curve, none, none, none, none, none, none⟩

/-- `RooGoF(RooDataSet*, RooAbsPdf*, RooRealVar*)`. -/
def RooGoF.ofData {P DS SD : Type} (data : DS) : RooGoF P DS SD :=
  ⟨none, none, some data, none, none, none, none, none⟩

/-- `setRange(lo, hi)`. -/
def RooGoF.setRange {P DS SD : Type} (g : RooGoF P DS SD) (lo hi : Int) : RooGoF P DS SD :=
  { g with range := some (lo, hi) }

/-- `setRebin(minExpected, flag)`. -/
def RooGoF.setRebin {P DS SD : Type} (g : RooGoF P DS SD) (n : Nat) (flag : Bool) :
    RooGoF P DS SD :=
  { g with rebin := some (n, flag) }

/-- `setNtoys(n, flag, ...)`; the `NumCPU` argument of line 119 only sets the number of
workers. -/
def RooGoF.setNtoys {P DS SD : Type} (g : RooGoF P DS SD) (n : Nat) (flag : Bool) :
    RooGoF P DS SD :=
  { g with ntoys := some (n, flag) }

/-- `setSamplingDist_AD(sd)`: the pointer handed over may be null. -/
def RooGoF.setSamplingDist_AD {P DS SD : Type} (g : RooGoF P DS SD) (sd : Option SD) :
    RooGoF P DS SD :=
  { g with sd_AD := sd }

/-- `setSamplingDist_KS(sd)`. -/
def RooGoF.setSamplingDist_KS {P DS SD : Type} (g : RooGoF P DS SD) (sd : Option SD) :
    RooGoF P DS SD :=
  { g with sd_KS := sd }

/-- `getSamplingDist_AD()`. -/
def RooGoF.getSamplingDist_AD {P DS SD : Type} (g : RooGoF P DS SD) : Option SD :=
  g.sd_AD

/-- `getSamplingDist_KS()`. -/
def RooGoF.getSamplingDist_KS {P DS SD : Type} (g : RooGoF P DS SD) : Option SD :=
  g.sd_KS

/-- The observable `x` of line 36: `RooRealVar x("x","x",0,10)`. -/
def x_getMin : Int := 0

/-- The upper end of `x`, line 36. -/
def x_getMax : Int := 10

/-! ## The external collaborators -/

/-- What `testGoF()` reads of a `RooFitResult`. -/
structure RooFitResult where
  status : Int
  floatParsFinal : List String

/-- What an `ADTest` or `KSTest` leaves behind when the tester has to draw its toys
first: the two outputs, the tester (which now keeps its sampling distribution), the
parameter values of the model and the state of the random generator. -/
structure Sampled (P DS R SD D : Type) where
  pvalue : D
  testStat : D
  tester : RooGoF P DS SD
  model : P
  rng : R

/-- The code outside `testGoF.C`.  `P`: values of the model parameters; `DS`: datasets;
`R`: states of the random generator; `SD`: sampling distributions; `D`: doubles.

* `generate m n r` is `model.generate(x, n)` with the model at `m`.
* `fitTo m data` is `model.fitTo(data, ...)` started at `m`: the parameter values the
  fit leaves in the model, and its result (which the call of line 226 discards).
* `ADTest g m` and `KSTest g m` give `(pvalue, testStat)` of the tester `g` with the
  model at `m`.  They serve for a tester without toys and for a tester that holds the
  sampling distributions it needs: by sections 3 and 4.4 of the specification the
  engine then neither changes the model parameters nor the distributions.
* `ADTest_sampling` and `KSTest_sampling` are the same methods on a tester set to use
  toys that was given no distribution (lines 120 and 122).
* The four chi-square tests give `(pvalue, testStat, ndf)`; their last argument is the
  fourth argument `d_ndf` of the call, `none` where the call leaves it out. -/
structure Externals (P DS R SD D : Type) where
  generate : P → Nat → R → DS × R
  fitTo : P → DS → P × RooFitResult
  ADTest : RooGoF P DS SD → P → D × D
  KSTest : RooGoF P DS SD → P → D × D
  ADTest_sampling : RooGoF P DS SD → P → R → Sampled P DS R SD D
  KSTest_sampling : RooGoF P DS SD → P → R → Sampled P DS R SD D
  BCChi2Test : RooGoF P DS SD → Option Int → D × D × Int
  RooFitChi2Test : RooGoF P DS SD → Option Int → D × D × Int
  NeymanChi2Test : RooGoF P DS SD → Option Int → D × D × Int
  PearsonChi2Test : RooGoF P DS SD → Option Int → D × D × Int

/-! ## The state of `testGoF()` -/

/-- A line written to `cout`. -/
inductive Cout (D : Type)
  | result (label : String) (pvalue testStat : D)
  | progress (i ntoys : Int)

/-- The operations of one trial.  A test carries the variable that receives its
p-value; `toys` tells whether the tester was set to use toys, `d_ndf` is the fourth
argument of a chi-square test. -/
inductive Op
  | assign
  | generate
  | ADTest (pvalue : Var) (toys : Bool)
  | KSTest (pvalue : Var) (toys : Bool)
  | BCChi2Test (pvalue : Var) (d_ndf : Option Int)
  | RooFitChi2Test (pvalue : Var) (d_ndf : Option Int)
  | NeymanChi2Test (pvalue : Var) (d_ndf : Option Int)
  | PearsonChi2Test (pvalue : Var) (d_ndf : Option Int)
  | fitTo
  | Fill
  deriving DecidableEq, Repr

/-- An operation together with the parameter values in the model when it starts. -/
structure Event (P : Type) where
  op : Op
  model : P

/-- The variables of `testGoF()` that live across the toy loop: the parameter values in
the model (reached through `params`), the snapshot `bestFitParams`, the state of the
random generator, `d_ndf`, `ndf`, the tester `goftest_unbinned` of line 108 (which holds
the sampling distributions it drew at lines 120-123), the pointers `sd_AD` and `sd_KS`,
the 26 doubles, the tree, the console, and the log. -/
structure State (P DS R SD D : Type) where
  model : P
  bestFitParams : P
  rng : R
  d_ndf : Int
  ndf : Int
  goftest_unbinned : RooGoF P DS SD
  sd_AD : Option SD
  sd_KS : Option SD
  vars : Var → D
  tr : List (Row D)
  cout : List (Cout D)
  log : List (Event P)

section Harness

variable {P DS R SD D : Type}

/-- Ghost step: record an operation with the current parameter values. -/
def State.emit (s : State P DS R SD D) (op : Op) : State P DS R SD D :=
  { s with log := s.log ++ [⟨op, s.model⟩] }

/-- Assignment to one of the 26 doubles. -/
def State.set (s : State P DS R SD D) (v : Var) (value : D) : State P DS R SD D :=
  { s with vars := Function.update s.vars v value }

/-- `g.ADTest(pvalue, testStat)`; `testStat = none` stands for the local `tmp` of line
246, which is dropped at the end of the trial. -/
def State.ADTest (s : State P DS R SD D) (E : Externals P DS R SD D) (g : RooGoF P DS SD)
    (pvalue : Var) (testStat : Option Var) : State P DS R SD D :=
  let r := E.ADTest g s.model
  let s := (s.emit (.ADTest pvalue g.ntoys.isSome)).set pvalue r.1
  match testStat with
  | some ts => s.set ts r.2
  | none => s

/-- `g.KSTest(pvalue, testStat)`. -/
def State.KSTest (s : State P DS R SD D) (E : Externals P DS R SD D) (g : RooGoF P DS SD)
    (pvalue : Var) (testStat : Option Var) : State P DS R SD D :=
  let r := E.KSTest g s.model
  let s := (s.emit (.KSTest pvalue g.ntoys.isSome)).set pvalue r.1
  match testStat with
  | some ts => s.set ts r.2
  | none => s

/-- `g.BCChi2Test(pvalue, testStat, ndf)` or `g.BCChi2Test(pvalue, testStat, ndf, d_ndf)`. -/
def State.BCChi2Test (s : State P DS R SD D) (E : Externals P DS R SD D)
    (g : RooGoF P DS SD) (pvalue testStat : Var) (d_ndf : Option Int) : State P DS R SD D :=
  let r := E.BCChi2Test g d_ndf
  let s := ((s.emit (.BCChi2Test pvalue d_ndf)).set pvalue r.1).set testStat r.2.1
  { s with ndf := r.2.2 }

/-- `g.RooFitChi2Test(...)`. -/
def State.RooFitChi2Test (s : State P DS R SD D) (E : Externals P DS R SD D)
    (g : RooGoF P DS SD) (pvalue testStat : Var) (d_ndf : Option Int) : State P DS R SD D :=
  let r := E.RooFitChi2Test g d_ndf
  let s := ((s.emit (.RooFitChi2Test pvalue d_ndf)).set pvalue r.1).set testStat r.2.1
  { s with ndf := r.2.2 }

/-- `g.NeymanChi2Test(...)`. -/
def State.NeymanChi2Test (s : State P DS R SD D) (E : Externals P DS R SD D)
    (g : RooGoF P DS SD) (pvalue testStat : Var) (d_ndf : Option Int) : State P DS R SD D :=
  let r := E.NeymanChi2Test g d_ndf
  let s := ((s.emit (.NeymanChi2Test pvalue d_ndf)).set pvalue r.1).set testStat r.2.1
  { s with ndf := r.2.2 }

/-- `g.PearsonChi2Test(...)`. -/
def State.PearsonChi2Test (s : State P DS R SD D) (E : Externals P DS R SD D)
    (g : RooGoF P DS SD) (pvalue testStat : Var) (d_ndf : Option Int) : State P DS R SD D :=
  let r := E.PearsonChi2Test g d_ndf
  let s := ((s.emit (.PearsonChi2Test pvalue d_ndf)).set pvalue r.1).set testStat r.2.1
  { s with ndf := r.2.2 }

/-- Line 198: `if (i%100==0) cout << i << "/" << ntoys << endl;`. -/
def State.progress (s : State P DS R SD D) (ntoys i : Int) : State P DS R SD D :=
  { s with cout := if i % 100 = 0 then s.cout ++ [.progress i ntoys] else s.cout }

/-- Line 200: `*params = *bestFitParams;`, which copies the values of the snapshot into
the parameters of the model. -/
def State.assign (s : State P DS R SD D) : State P DS R SD D :=
  { s.emit .assign with model := s.bestFitParams }

/-- Line 203: `RooDataSet *datatoy = model.generate(x,1000) ;`. -/
def State.generate (s : State P DS R SD D) (E : Externals P DS R SD D) :
    DS × State P DS R SD D :=
  let gen := E.generate s.model 1000 s.rng
  (gen.1, { s.emit .generate with rng := gen.2 })

/-- Lines 206-223, "do gof before". -/
def gofBefore (E : Externals P DS R SD D) (datatoy : DS) (s : State P DS R SD D) :
    State P DS R SD D :=
  -- 206-208: xframetoy
  let xframetoy := ((frame : RooPlot P DS).plotOn_data datatoy).plotOn_model s.model
  -- 211-213: goftesttoy
  let goftesttoy : RooGoF P DS SD :=
    ((RooGoF.ofHist xframetoy.h_modelData xframetoy.model_Norm).setRange
      x_getMin x_getMax).setRebin 5 false
  -- 215-216: goftesttoy_unbinned
  let goftesttoy_unbinned : RooGoF P DS SD :=
    (RooGoF.ofData datatoy).setRange x_getMin x_getMax
  -- 218-223
  let s1 := s.ADTest E goftesttoy_unbinned .pval_AD_before (some .ts_AD_before)
  let s2 := s1.KSTest E goftesttoy_unbinned .pval_KS_before (some .ts_KS_before)
  let s3 := s2.BCChi2Test E goftesttoy .pval_BCChi2_before .ts_BCChi2_before none
  let s4 := s3.RooFitChi2Test E goftesttoy .pval_RooFitChi2_before .ts_RooFitChi2_before none
  let s5 := s4.NeymanChi2Test E goftesttoy .pval_NeymanChi2_before .ts_NeymanChi2_before none
  s5.PearsonChi2Test E goftesttoy .pval_PearsonChi2_before .ts_PearsonChi2_before none

/-- Line 226: `model.fitTo(*datatoy,NumCPU(4)) ;`.  The value of the call is not kept,
so nothing of the fit result reaches the rest of the trial. -/
def State.fitTo (s : State P DS R SD D) (E : Externals P DS R SD D) (datatoy : DS) :
    State P DS R SD D :=
  { s.emit .fitTo with model := (E.fitTo s.model datatoy).1 }

/-- Lines 229-252, "do gof after". -/
def gofAfter (E : Externals P DS R SD D) (datatoy : DS) (s : State P DS R SD D) :
    State P DS R SD D :=
  -- 229-231: xframetoy2
  let xframetoy2 := ((frame : RooPlot P DS).plotOn_data datatoy).plotOn_model s.model
  -- 232-234: goftesttoy2
  let goftesttoy2 : RooGoF P DS SD :=
    ((RooGoF.ofHist xframetoy2.h_modelData xframetoy2.model_Norm).setRange
      x_getMin x_getMax).setRebin 5 false
  -- 236, 238: goftesttoy2_unbinned
  let goftesttoy2_unbinned : RooGoF P DS SD :=
    (RooGoF.ofData datatoy).setRange x_getMin x_getMax
  -- 237, 239-242: goftesttoy2_unbinned_t
  let goftesttoy2_unbinned_t : RooGoF P DS SD :=
    ((((RooGoF.ofData datatoy).setRange x_getMin x_getMax).setNtoys 100 true).setSamplingDist_AD
      s.sd_AD).setSamplingDist_KS s.sd_KS
  -- 244-245
  let s1 := s.ADTest E goftesttoy2_unbinned .pval_AD_after (some .ts_AD_after)
  let s2 := s1.KSTest E goftesttoy2_unbinned .pval_KS_after (some .ts_KS_after)
  -- 246-248: double tmp;
  let s3 := s2.ADTest E goftesttoy2_unbinned_t .pval_AD_after_toys none
  let s4 := s3.KSTest E goftesttoy2_unbinned_t .pval_KS_after_toys none
  -- 249-252
  let s5 := s4.BCChi2Test E goftesttoy2 .pval_BCChi2_after .ts_BCChi2_after (some s4.d_ndf)
  let s6 := s5.RooFitChi2Test E goftesttoy2 .pval_RooFitChi2_after .ts_RooFitChi2_after
    (some s5.d_ndf)
  let s7 := s6.NeymanChi2Test E goftesttoy2 .pval_NeymanChi2_after .ts_NeymanChi2_after
    (some s6.d_ndf)
  s7.PearsonChi2Test E goftesttoy2 .pval_PearsonChi2_after .ts_PearsonChi2_after
    (some s7.d_ndf)

/-- Line 255: `tr->Fill();`. -/
def State.Fill (s : State P DS R SD D) : State P DS R SD D :=
  { s.emit .Fill with tr := s.tr ++ [StatComm.Fill s.vars] }

/-- The body of the toy loop, lines 198-260, for the loop index `i`.  Lines 258-260
delete the dataset and the two frames of the trial. -/
def trial (E : Externals P DS R SD D) (ntoys i : Int) (s : State P DS R SD D) :
    State P DS R SD D :=
  let gen := ((s.progress ntoys i).assign).generate E
  let datatoy := gen.1
  (gofAfter E datatoy ((gofBefore E datatoy gen.2).fitTo E datatoy)).Fill

/-- `for (int i=0; i<ntoys; i++) { ... }`, entered with the loop index at `i`. -/
def forLoop (E : Externals P DS R SD D) (ntoys : Int) (i : Int) (s : State P DS R SD D) :
    State P DS R SD D :=
  if i < ntoys then forLoop E ntoys (i + 1) (trial E ntoys i s) else s
termination_by (ntoys - i).toNat
decreasing_by omega

/-- The toy study, lines 197-261. -/
def toyStudy (E : Externals P DS R SD D) (ntoys : Int) (s : State P DS R SD D) :
    State P DS R SD D :=
  forLoop E ntoys 0 s

/-- Lines 72-193 of `testGoF()`: everything before the toy loop.  `m0` holds the
parameter values given by the constructors of lines 40-64, `r0` is the state of the
random generator, `vars0` are the (unset) values of the 26 doubles. -/
def setup (E : Externals P DS R SD D) (m0 : P) (r0 : R) (vars0 : Var → D) :
    State P DS R SD D :=
  -- 72: RooDataSet *data = model.generate(x,1000) ;
  let gen := E.generate m0 1000 r0
  let data := gen.1
  -- 75: RooFitResult *fr = model.fitTo(*data,Save(),NumCPU(4)) ;
  let fit := E.fitTo m0 data
  let fr := fit.2
  -- 77-78: params = model.getParameters(x); bestFitParams = params->snapshot()
  let bestFitParams := fit.1
  -- 81: int d_ndf = fr->floatParsFinal().getSize() ;
  let d_ndf : Int := fr.floatParsFinal.length
  -- 84-86: xframe
  let xframe := ((frame : RooPlot P DS).plotOn_data data).plotOn_model fit.1
  -- 102-104: goftest
  let goftest : RooGoF P DS SD :=
    ((RooGoF.ofHist xframe.h_modelData xframe.model_Norm).setRange
      x_getMin x_getMax).setRebin 5 false
  -- 108-109: goftest_unbinned
  let goftest_unbinned : RooGoF P DS SD :=
    (RooGoF.ofData data).setRange x_getMin x_getMax
  -- 113-116
  let ad := E.ADTest goftest_unbinned fit.1
  let ks := E.KSTest goftest_unbinned fit.1
  -- 119: goftest_unbinned.setNtoys(1000,true,NumCPU(4));
  let goftest_unbinned := goftest_unbinned.setNtoys 1000 true
  -- 120-123
  let adToys := E.ADTest_sampling goftest_unbinned fit.1 gen.2
  let ksToys := E.KSTest_sampling adToys.tester adToys.model adToys.rng
  let goftest_unbinned := ksToys.tester
  -- 126-134: int ndf=0; and the four binned tests with d_ndf
  let bc := E.BCChi2Test goftest (some d_ndf)
  let neyman := E.NeymanChi2Test goftest (some d_ndf)
  let pearson := E.PearsonChi2Test goftest (some d_ndf)
  let roofit := E.RooFitChi2Test goftest (some d_ndf)
  -- 146-147: sd_AD, sd_KS
  { model := ksToys.model
    bestFitParams := bestFitParams
    rng := ksToys.rng
    d_ndf := d_ndf
    ndf := roofit.2.2
    goftest_unbinned := goftest_unbinned
    sd_AD := goftest_unbinned.getSamplingDist_AD
    sd_KS := goftest_unbinned.getSamplingDist_KS
    vars := vars0
    -- 162: the tree is created empty
    tr := []
    cout :=
      [ .result "AD (asym.): " ad.1 ad.2, .result "KS (asym.): " ks.1 ks.2,
        .result "AD (toys): " adToys.pvalue adToys.testStat,
        .result "KS (toys): " ksToys.pvalue ksToys.testStat,
        .result "BC: " bc.1 bc.2.1, .result "Neyman: " neyman.1 neyman.2.1,
        .result "Pearson: " pearson.1 pearson.2.1, .result "RooFit: " roofit.1 roofit.2.1 ]
    log := [] }

/-- Line 143: `int ntoys = 1000;`. -/
def ntoys : Int := 1000

/-- The function `testGoF()` up to the end of the toy loop (line 261); what follows
draws the branches of the tree and writes the tree to `toys.root`. -/
def testGoF (E : Externals P DS R SD D) (m0 : P) (r0 : R) (vars0 : Var → D) :
    State P DS R SD D :=
  toyStudy E ntoys (setup E m0 r0 vars0)

/-! ### Reference points of the proofs -/

/-- The state after the first `k` trials of the loop entered in state `s`. -/
def stateAt (E : Externals P DS R SD D) (ntoys : Int) (s : State P DS R SD D) :
    Nat → State P DS R SD D
  | 0 => s
  | k + 1 => trial E ntoys k (stateAt E ntoys s k)

/-- The state of the random generator at the start of trial `k`: every trial draws one
dataset from the model at the best-fit parameters. -/
def rngAt (E : Externals P DS R SD D) (s : State P DS R SD D) : Nat → R
  | 0 => s.rng
  | k + 1 => (E.generate s.bestFitParams 1000 (rngAt E s k)).2

/-- The pseudo-dataset of trial `k`. -/
def datatoyAt (E : Externals P DS R SD D) (s : State P DS R SD D) (k : Nat) : DS :=
  (E.generate s.bestFitParams 1000 (rngAt E s k)).1

/-- The parameter values that the fit of trial `k` leaves in the model. -/
def fittedAt (E : Externals P DS R SD D) (s : State P DS R SD D) (k : Nat) : P :=
  (E.fitTo s.bestFitParams (datatoyAt E s k)).1

/-- The result of the fit of trial `k`, which the loop does not look at. -/
def fitResultAt (E : Externals P DS R SD D) (s : State P DS R SD D) (k : Nat) :
    RooFitResult :=
  (E.fitTo s.bestFitParams (datatoyAt E s k)).2

/-- The unbinned tester of a trial without toys (lines 215-216 and 236, 238). -/
def unbinnedTester (datatoy : DS) : RooGoF P DS SD :=
  { hist := none, curve := none, data := some datatoy, range := some (0, 10),
    rebin := none, ntoys := none, sd_AD := none, sd_KS := none }

/-- The unbinned tester of a trial set to use toys (lines 237, 239-242), given the two
sampling distributions. -/
def toyTester (datatoy : DS) (sd_AD sd_KS : Option SD) : RooGoF P DS SD :=
  { hist := none, curve := none, data := some datatoy, range := some (0, 10),
    rebin := none, ntoys := some (100, true), sd_AD := sd_AD, sd_KS := sd_KS }

/-- The binned tester of a trial (lines 211-213 and 232-234): histogram of the dataset,
curve of the model at the parameter values `m`. -/
def binnedTester (datatoy : DS) (m : P) : RooGoF P DS SD :=
  { hist := some datatoy, curve := some (m, some datatoy), data := none,
    range := some (0, 10), rebin := some (5, false), ntoys := none, sd_AD := none,
    sd_KS := none }

/-- The operations of one trial in the order of the source, lines 200-255, for the
value `d` of `d_ndf`. -/
def trialOps (d : Int) : List Op :=
  [ .assign, .generate,
    .ADTest .pval_AD_before false, .KSTest .pval_KS_before false,
    .BCChi2Test .pval_BCChi2_before none, .RooFitChi2Test .pval_RooFitChi2_before none,
    .NeymanChi2Test .pval_NeymanChi2_before none,
    .PearsonChi2Test .pval_PearsonChi2_before none,
    .fitTo,
    .ADTest .pval_AD_after false, .KSTest .pval_KS_after false,
    .ADTest .pval_AD_after_toys true, .KSTest .pval_KS_after_toys true,
    .BCChi2Test .pval_BCChi2_after (some d), .RooFitChi2Test .pval_RooFitChi2_after (some d),
    .NeymanChi2Test .pval_NeymanChi2_after (some d),
    .PearsonChi2Test .pval_PearsonChi2_after (some d),
    .Fill ]

/-- The parameter values found in the model at the start of trial `k`: those of the
loop entry, then what the fit of the trial before left. -/
def foundAt (E : Externals P DS R SD D) (s : State P DS R SD D) : Nat → P
  | 0 => s.model
  | k + 1 => fittedAt E s k

/-- The events one trial adds to the log: the operations of `trialOps`, each with the
parameter values in the model when it starts.  `found` are the values at the start of
the trial, `best` the snapshot, `fitted` what the fit leaves. -/
def trialEvents (found best fitted : P) (d : Int) : List (Event P) :=
  [ ⟨.assign, found⟩, ⟨.generate, best⟩,
    ⟨.ADTest .pval_AD_before false, best⟩, ⟨.KSTest .pval_KS_before false, best⟩,
    ⟨.BCChi2Test .pval_BCChi2_before none, best⟩,
    ⟨.RooFitChi2Test .pval_RooFitChi2_before none, best⟩,
    ⟨.NeymanChi2Test .pval_NeymanChi2_before none, best⟩,
    ⟨.PearsonChi2Test .pval_PearsonChi2_before none, best⟩,
    ⟨.fitTo, best⟩,
    ⟨.ADTest .pval_AD_after false, fitted⟩, ⟨.KSTest .pval_KS_after false, fitted⟩,
    ⟨.ADTest .pval_AD_after_toys true, fitted⟩, ⟨.KSTest .pval_KS_after_toys true, fitted⟩,
    ⟨.BCChi2Test .pval_BCChi2_after (some d), fitted⟩,
    ⟨.RooFitChi2Test .pval_RooFitChi2_after (some d), fitted⟩,
    ⟨.NeymanChi2Test .pval_NeymanChi2_after (some d), fitted⟩,
    ⟨.PearsonChi2Test .pval_PearsonChi2_after (some d), fitted⟩,
    ⟨.Fill, fitted⟩ ]

/-- The values of the 26 doubles at the end of a trial, per variable: which test, on
which tester and with the model at which parameter values, wrote it.  `best` is the
snapshot, `fitted` what the fit of the trial left, `d` the value of `d_ndf`. -/
def trialVars (E : Externals P DS R SD D) (best : P) (datatoy : DS) (fitted : P)
    (sd_AD sd_KS : Option SD) (d : Int) : Var → D
  | .pval_AD_before => (E.ADTest (unbinnedTester datatoy) best).1
  | .ts_AD_before => (E.ADTest (unbinnedTester datatoy) best).2
  | .pval_AD_after => (E.ADTest (unbinnedTester datatoy) fitted).1
  | .ts_AD_after => (E.ADTest (unbinnedTester datatoy) fitted).2
  | .pval_AD_after_toys => (E.ADTest (toyTester datatoy sd_AD sd_KS) fitted).1
  | .pval_KS_before => (E.KSTest (unbinnedTester datatoy) best).1
  | .ts_KS_before => (E.KSTest (unbinnedTester datatoy) best).2
  | .pval_KS_after => (E.KSTest (unbinnedTester datatoy) fitted).1
  | .ts_KS_after => (E.KSTest (unbinnedTester datatoy) fitted).2
  | .pval_KS_after_toys => (E.KSTest (toyTester datatoy sd_AD sd_KS) fitted).1
  | .pval_BCChi2_before => (E.BCChi2Test (binnedTester datatoy best) none).1
  | .ts_BCChi2_before => (E.BCChi2Test (binnedTester datatoy best) none).2.1
  | .pval_BCChi2_after => (E.BCChi2Test (binnedTester datatoy fitted) (some d)).1
  | .ts_BCChi2_after => (E.BCChi2Test (binnedTester datatoy fitted) (some d)).2.1
  | .pval_RooFitChi2_before => (E.RooFitChi2Test (binnedTester datatoy best) none).1
  | .ts_RooFitChi2_before => (E.RooFitChi2Test (binnedTester datatoy best) none).2.1
  | .pval_RooFitChi2_after => (E.RooFitChi2Test (binnedTester datatoy fitted) (some d)).1
  | .ts_RooFitChi2_after => (E.RooFitChi2Test (binnedTester datatoy fitted) (some d)).2.1
  | .pval_PearsonChi2_before => (E.PearsonChi2Test (binnedTester datatoy best) none).1
  | .ts_PearsonChi2_before => (E.PearsonChi2Test (binnedTester datatoy best) none).2.1
  | .pval_PearsonChi2_after => (E.PearsonChi2Test (binnedTester datatoy fitted) (some d)).1
  | .ts_PearsonChi2_after => (E.PearsonChi2Test (binnedTester datatoy fitted) (some d)).2.1
  | .pval_NeymanChi2_before => (E.NeymanChi2Test (binnedTester datatoy best) none).1
  | .ts_NeymanChi2_before => (E.NeymanChi2Test (binnedTester datatoy best) none).2.1
  | .pval_NeymanChi2_after => (E.NeymanChi2Test (binnedTester datatoy fitted) (some d)).1
  | .ts_NeymanChi2_after => (E.NeymanChi2Test (binnedTester datatoy fitted) (some d)).2.1

/-- The values of the 26 doubles at the end of trial `k`. -/
def varsAt (E : Externals P DS R SD D) (s : State P DS R SD D) (k : Nat) : Var → D :=
  trialVars E s.bestFitParams (datatoyAt E s k) (fittedAt E s k) s.sd_AD s.sd_KS s.d_ndf

/-- The row of trial `k` as the claims describe it, column by column: under
`pval_T_phase` and `ts_T_phase` the p-value and the statistic of test `T` run in that
phase on the dataset of the trial, under `pval_AD_after_toys` and `pval_KS_after_toys`
the p-values of the tester set to use toys.  Before the fit the model is at the
snapshot `best`, after it at `fitted`; only the after-fit chi-square tests get `d`. -/
def claimedRow (E : Externals P DS R SD D) (best : P) (datatoy : DS) (fitted : P)
    (sd_AD sd_KS : Option SD) (d : Int) : Row D :=
  [ ("pval_AD_before", (E.ADTest (unbinnedTester datatoy) best).1),
    ("ts_AD_before", (E.ADTest (unbinnedTester datatoy) best).2),
    ("pval_AD_after", (E.ADTest (unbinnedTester datatoy) fitted).1),
    ("pval_AD_after_toys", (E.ADTest (toyTester datatoy sd_AD sd_KS) fitted).1),
    ("ts_AD_after", (E.ADTest (unbinnedTester datatoy) fitted).2),
    ("pval_KS_before", (E.KSTest (unbinnedTester datatoy) best).1),
    ("ts_KS_before", (E.KSTest (unbinnedTester datatoy) best).2),
    ("pval_KS_after", (E.KSTest (unbinnedTester datatoy) fitted).1),
    ("pval_KS_after_toys", (E.KSTest (toyTester datatoy sd_AD sd_KS) fitted).1),
    ("ts_KS_after", (E.KSTest (unbinnedTester datatoy) fitted).2),
    ("pval_BCChi2_before", (E.BCChi2Test (binnedTester datatoy best) none).1),
    ("ts_BCChi2_before", (E.BCChi2Test (binnedTester datatoy best) none).2.1),
    ("pval_BCChi2_after", (E.BCChi2Test (binnedTester datatoy fitted) (some d)).1),
    ("ts_BCChi2_after", (E.BCChi2Test (binnedTester datatoy fitted) (some d)).2.1),
    ("pval_RooFitChi2_before", (E.RooFitChi2Test (binnedTester datatoy best) none).1),
    ("ts_RooFitChi2_before", (E.RooFitChi2Test (binnedTester datatoy best) none).2.1),
    ("pval_RooFitChi2_after", (E.RooFitChi2Test (binnedTester datatoy fitted) (some d)).1),
    ("ts_RooFitChi2_after", (E.RooFitChi2Test (binnedTester datatoy fitted) (some d)).2.1),
    ("pval_PearsonChi2_before", (E.PearsonChi2Test (binnedTester datatoy best) none).1),
    ("ts_PearsonChi2_before", (E.PearsonChi2Test (binnedTester datatoy best) none).2.1),
    ("pval_PearsonChi2_after", (E.PearsonChi2Test (binnedTester datatoy fitted) (some d)).1),
    ("ts_PearsonChi2_after", (E.PearsonChi2Test (binnedTester datatoy fitted) (some d)).2.1),
    ("pval_NeymanChi2_before", (E.NeymanChi2Test (binnedTester datatoy best) none).1),
    ("ts_NeymanChi2_before", (E.NeymanChi2Test (binnedTester datatoy best) none).2.1),
    ("pval_NeymanChi2_after", (E.NeymanChi2Test (binnedTester datatoy fitted) (some d)).1),
    ("ts_NeymanChi2_after", (E.NeymanChi2Test (binnedTester datatoy fitted) (some d)).2.1) ]

end Harness

/-! ## Reading the log -/

/-- The tests that write a `_before` variable. -/
def Op.isBeforeTest : Op → Bool
  | .ADTest .pval_AD_before _ => true
  | .KSTest .pval_KS_before _ => true
  | .BCChi2Test .pval_BCChi2_before _ => true
  | .RooFitChi2Test .pval_RooFitChi2_before _ => true
  | .NeymanChi2Test .pval_NeymanChi2_before _ => true
  | .PearsonChi2Test .pval_PearsonChi2_before _ => true
  | _ => false

/-- The after-fit tests that give an asymptotic p-value: the ones that write a
`pval_T_after` variable. -/
def Op.isAfterAsymptotic : Op → Bool
  | .ADTest .pval_AD_after _ => true
  | .KSTest .pval_KS_after _ => true
  | .BCChi2Test .pval_BCChi2_after _ => true
  | .RooFitChi2Test .pval_RooFitChi2_after _ => true
  | .NeymanChi2Test .pval_NeymanChi2_after _ => true
  | .PearsonChi2Test .pval_PearsonChi2_after _ => true
  | _ => false

/-- The after-fit tests that give a toy-based p-value: the ones that write a
`pval_T_after_toys` variable. -/
def Op.isAfterToys : Op → Bool
  | .ADTest .pval_AD_after_toys _ => true
  | .KSTest .pval_KS_after_toys _ => true
  | _ => false

/-- The pseudo-dataset generation and the before-fit tests. -/
def Op.isGenerateOrBefore (op : Op) : Bool :=
  op = .generate || op.isBeforeTest

/-- The four chi-square tests. -/
def Op.isChi2 : Op → Bool
  | .BCChi2Test _ _ => true
  | .RooFitChi2Test _ _ => true
  | .NeymanChi2Test _ _ => true
  | .PearsonChi2Test _ _ => true
  | _ => false

/-- In the sequence `ops`, every operation of kind `p` comes before every operation of
kind `q`. -/
def AllBefore (ops : List Op) (p q : Op → Bool) : Prop :=
  ∀ (i j : Nat) (a b : Op),
    ops[i]? = some a → ops[j]? = some b → p a = true → q b = true → i < j

/-- The chi-square calls of one trial in source order (lines 220-223 and 249-252), for
the value `d` of `d_ndf`: the before-fit calls leave the fourth argument out. -/
def trialChi2Calls (d : Int) : List Op :=
  [ .BCChi2Test .pval_BCChi2_before none, .RooFitChi2Test .pval_RooFitChi2_before none,
    .NeymanChi2Test .pval_NeymanChi2_before none,
    .PearsonChi2Test .pval_PearsonChi2_before none,
    .BCChi2Test .pval_BCChi2_after (some d), .RooFitChi2Test .pval_RooFitChi2_after (some d),
    .NeymanChi2Test .pval_NeymanChi2_after (some d),
    .PearsonChi2Test .pval_PearsonChi2_after (some d) ]

/-- The columns written by the before-fit chi-square calls of lines 220-223, in the
order of the calls. -/
def chi2ColumnsBefore : List String :=
  [ "pval_BCChi2_before", "ts_BCChi2_before",
    "pval_RooFitChi2_before", "ts_RooFitChi2_before",
    "pval_NeymanChi2_before", "ts_NeymanChi2_before",
    "pval_PearsonChi2_before", "ts_PearsonChi2_before" ]

/-- The columns written by the after-fit chi-square calls of lines 249-252, in the
order of the calls. -/
def chi2ColumnsAfter : List String :=
  [ "pval_BCChi2_after", "ts_BCChi2_after",
    "pval_RooFitChi2_after", "ts_RooFitChi2_after",
    "pval_NeymanChi2_after", "ts_NeymanChi2_after",
    "pval_PearsonChi2_after", "ts_PearsonChi2_after" ]

/-- The p-value and the statistic that the four chi-square tests BC, RooFit, Neyman,
Pearson return for the tester `g` when they are called with `extra` as their fourth
argument. -/
def chi2Results {P DS R SD D : Type} (E : Externals P DS R SD D) (g : RooGoF P DS SD)
    (extra : Option Int) : List (Option D) :=
  [ some (E.BCChi2Test g extra).1, some (E.BCChi2Test g extra).2.1,
    some (E.RooFitChi2Test g extra).1, some (E.RooFitChi2Test g extra).2.1,
    some (E.NeymanChi2Test g extra).1, some (E.NeymanChi2Test g extra).2.1,
    some (E.PearsonChi2Test g extra).1, some (E.PearsonChi2Test g extra).2.1 ]

/-- The declaration of the four chi-square tests in RooGoF.C (not under src/) gives
their fourth parameter `d_ndf` the default 0: a call that leaves the argument out is
the call with 0, which subtracts no fit parameter. -/
def DefaultIsZero {P DS R SD D : Type} (E : Externals P DS R SD D) : Prop :=
  ∀ g : RooGoF P DS SD,
    E.BCChi2Test g none = E.BCChi2Test g (some 0) ∧
    E.RooFitChi2Test g none = E.RooFitChi2Test g (some 0) ∧
    E.NeymanChi2Test g none = E.NeymanChi2Test g (some 0) ∧
    E.PearsonChi2Test g none = E.PearsonChi2Test g (some 0)

/-! ## The column names -/

/-- The column names as the specification writes them (section 6): for each of AD, KS,
Pearson, Neyman, BC and RooFit-chi2 the columns `{testName}_pvalue_before`,
`{testName}_stat_before`, `{testName}_pvalue_after`, `{testName}_stat_after`, and
`{testName}_pvalue_after_toys` for AD and KS. -/
def specColumns : List String :=
  ["AD", "KS", "Pearson", "Neyman", "BC", "RooFit-chi2"].flatMap fun t =>
    [t ++ "_pvalue_before", t ++ "_stat_before", t ++ "_pvalue_after", t ++ "_stat_after"]
      ++ (if t = "AD" ∨ t = "KS" then [t ++ "_pvalue_after_toys"] else [])

/-- The column names of the source, by test: `pval_T_before`, `ts_T_before`,
`pval_T_after`, `ts_T_after`, and `pval_T_after_toys` for AD and KS. -/
def codeColumns : List String :=
  ["AD", "KS", "BCChi2", "RooFitChi2", "PearsonChi2", "NeymanChi2"].flatMap fun t =>
    ["pval_" ++ t ++ "_before", "ts_" ++ t ++ "_before", "pval_" ++ t ++ "_after",
      "ts_" ++ t ++ "_after"]
      ++ (if t = "AD" ∨ t = "KS" then ["pval_" ++ t ++ "_after_toys"] else [])

/-! ## The engine of RooGoF.C as the specification describes it -/

namespace Engine

/-- Modelled from the spec: the Sampling Distribution of section 3, held by `RooGoF`
(RooGoF.C is not under src/): "an ordered, growable sequence of statistic values drawn
under the null model, plus the count of trials".  The count is the number of stored
values. -/
structure SamplingDistribution where
  values : List ℚ

/-- The count of trials of a sampling distribution. -/
def SamplingDistribution.nToys (d : SamplingDistribution) : Nat :=
  d.values.length

/-- Modelled from the spec: the rank of an observed statistic in a sampling distribution
(RooGoF.C is not under src/).  Section 4.4 counts the "stored values ≥ observed (ties
counted as meeting the threshold)" and calls the count the rank; by section 8 the
p-value "cannot be exactly 0" and is "`1/nToys` at minimum", so the rank is at least 1:
a statistic above every stored value has the first rank. -/
def rank (d : SamplingDistribution) (observedStatistic : ℚ) : Nat :=
  max 1 (d.values.filter fun v => observedStatistic ≤ v).length

/-- Modelled from the spec: `toyPValue` of section 4.4 (RooGoF.C is not under src/):
"returns the fraction of stored values ≥ observed (ties counted as meeting the
threshold), i.e., rank/total", with the rank of section 8, which is never 0. -/
def toyPValue (d : SamplingDistribution) (observedStatistic : ℚ) : ℚ :=
  (rank d observedStatistic : ℚ) / (d.nToys : ℚ)

/-- Modelled from the spec: a bin of the Binned Histogram of section 3 (RooGoF.C is not
under src/): `(edgeLow, edgeHigh, observedCount, expectedCount)`. -/
structure Bin where
  edgeLow : ℚ
  edgeHigh : ℚ
  observedCount : ℚ
  expectedCount : ℚ

/-- Modelled from the spec: the merge of two adjacent bins, section 4.1: "merging sums
both observed and expected counts and widens the edge". -/
def Bin.merge (a b : Bin) : Bin :=
  ⟨a.edgeLow, b.edgeHigh, a.observedCount + b.observedCount,
    a.expectedCount + b.expectedCount⟩

/-- Modelled from the spec: the left-to-right scan of `rebin`, section 4.1, with `cur`
the bin being built: a bin whose expected count is below the minimum is merged with its
right neighbour. -/
def rebinFrom (minExpected : ℚ) (cur : Bin) : List Bin → List Bin
  | [] => [cur]
  | b :: rest =>
    if cur.expectedCount < minExpected then rebinFrom minExpected (cur.merge b) rest
    else cur :: rebinFrom minExpected b rest

/-- Modelled from the spec: the end of the scan of `rebin`: a last bin below the minimum
has no right neighbour and is merged into the bin on its left, unless it is the only
bin. -/
def mergeLast (minExpected : ℚ) : List Bin → List Bin
  | [] => []
  | [a] => [a]
  | [a, b] => if b.expectedCount < minExpected then [a.merge b] else [a, b]
  | a :: b :: c :: rest => a :: mergeLast minExpected (b :: c :: rest)

/-- Modelled from the spec: `rebin(histogram, minExpected)` of section 4.1 (RooGoF.C is
not under src/): "merges each bin with expected count below `minExpected` into its
neighbor, scanning left-to-right, until no bin violates the floor or only one bin
remains". -/
def rebin (minExpected : ℚ) : List Bin → List Bin
  | [] => []
  | b :: rest => mergeLast minExpected (rebinFrom minExpected b rest)

/-- Modelled from the spec: the bins a chi-square statistic uses, section 4.2: the bins
left by the rebinning whose expected count is positive (Pearson sums "over bins with
E>0"). -/
def usableBins (minExpected : ℚ) (histogram : List Bin) : List Bin :=
  (rebin minExpected histogram).filter fun b => 0 < b.expectedCount

/-- The number of bins a chi-square statistic uses. -/
def numBinsUsed (minExpected : ℚ) (histogram : List Bin) : Nat :=
  (usableBins minExpected histogram).length

/-- Modelled from the spec: the Pearson statistic of section 4.2, "Σ (O−E)²/E over bins
with E>0". -/
def pearsonStatistic (bins : List Bin) : ℚ :=
  (bins.map fun b => (b.observedCount - b.expectedCount) ^ 2 / b.expectedCount).sum

/-- Modelled from the spec: the degrees of freedom of section 4.2,
"`numBinsUsed − 1 − extraDegreesOfFreedom`, clipped to minimum 1". -/
def degreesOfFreedom (numBinsUsed : Nat) (extraDegreesOfFreedom : Int) : Int :=
  max 1 ((numBinsUsed : Int) - 1 - extraDegreesOfFreedom)

/-- Modelled from the spec: the regularized upper incomplete gamma function `Q(a, x)` of
section 4.2, the integral of `exp (-t) * t ^ (a - 1)` over `t > x` divided by
`Gamma a`. -/
noncomputable def upperGammaQ (a x : ℝ) : ℝ :=
  (∫ t in Set.Ioi x, Real.exp (-t) * t ^ (a - 1)) / Real.Gamma a

/-- Modelled from the spec: the errors of section 7 that the tests raise. -/
inductive GoFError
  | InvalidRangeError
  | InsufficientBinsError
  | DegenerateSampleError
  deriving DecidableEq, Repr

/-- Modelled from the spec: the Test Statistic Result of section 3,
`(pValue, statisticValue, degreesOfFreedom)`. -/
structure TestStatisticResult where
  pValue : ℝ
  statisticValue : ℚ
  degreesOfFreedom : Int

/-- Modelled from the spec: the Pearson chi-square test of section 4.2 (RooGoF.C is not
under src/): rebin, fail with `InsufficientBinsError` "if fewer than 2 usable bins
remain after rebinning", else the statistic over the usable bins, the degrees of
freedom, and the p-value `Q(df/2, statistic/2)`. -/
noncomputable def PearsonChi2Test (minExpected : ℚ) (histogram : List Bin)
    (extraDegreesOfFreedom : Int) : Except GoFError TestStatisticResult :=
  if numBinsUsed minExpected histogram < 2 then .error .InsufficientBinsError
  else
    let statistic := pearsonStatistic (usableBins minExpected histogram)
    let df := degreesOfFreedom (numBinsUsed minExpected histogram) extraDegreesOfFreedom
    .ok ⟨upperGammaQ ((df : ℝ) / 2) ((statistic : ℝ) / 2), statistic, df⟩

/-- Observed and expected counts agree and are positive. -/
def Bin.Matches (b : Bin) : Prop :=
  b.observedCount = b.expectedCount ∧ 0 < b.expectedCount

end Engine

/-! ## The sampling distributions as objects of the engine

In `State` a pointer to a sampling distribution is modelled by the distribution itself.
This section models the same variables of `testGoF()` as pointers: the engine owns the
distribution objects, a pointer is a position among them, and every unbinned test
returns the objects as it leaves them.  The handling of the objects is modelled from
the specification; the values of the tests are those of `Externals`. -/

namespace Engine

/-- The two statistics that have a sampling distribution. -/
inductive StatisticKind
  | AD
  | KS
  deriving DecidableEq, Repr

/-- Modelled from the spec: `buildDistribution(model, nToys, statisticKind, ...)` of
section 4.4 (RooGoF.C is not under src/), for the tester that asks for it (its dataset
and number of toys) and the model at given parameter values: the distribution, and the
random generator after the pseudo-samples were drawn. -/
abbrev BuildDistribution (P DS R SD : Type) : Type :=
  StatisticKind → RooGoF P DS SD → P → R → SD × R

/-- What the engine owns beside its testers: the sampling-distribution objects made so
far, in the order of their creation (a pointer to one is its position in `store`), and
the state of the random generator as the engine finds and leaves it: it moves only when
the engine draws toys. -/
structure Objects (R SD : Type) where
  store : List SD
  rng : R

/-- The pointer a tester holds for the distribution of a statistic. -/
def samplingDist {P DS : Type} (g : RooGoF P DS Nat) : StatisticKind → Option Nat
  | .AD => g.sd_AD
  | .KS => g.sd_KS

/-- The tester keeps the pointer to a distribution it has built. -/
def keepSamplingDist {P DS : Type} (g : RooGoF P DS Nat) (k : StatisticKind) (p : Nat) :
    RooGoF P DS Nat :=
  match k with
  | .AD => g.setSamplingDist_AD (some p)
  | .KS => g.setSamplingDist_KS (some p)

/-- A tester as the tests of `Externals` take it: with the distributions themselves in
the place of the pointers to them. -/
def contents {P DS SD : Type} (store : List SD) (g : RooGoF P DS Nat) : RooGoF P DS SD :=
  { hist := g.hist, curve := g.curve, data := g.data, range := g.range, rebin := g.rebin,
    ntoys := g.ntoys, sd_AD := g.sd_AD.bind fun p => store[p]?,
    sd_KS := g.sd_KS.bind fun p => store[p]? }

/-- The p-value and the statistic of `ADTest` or `KSTest`. -/
def testOf {P DS R SD D : Type} (E : Externals P DS R SD D) :
    StatisticKind → RooGoF P DS SD → P → D × D
  | .AD => E.ADTest
  | .KS => E.KSTest

/-- Modelled from the spec: `ADTest` and `KSTest` of RooGoF.C (not under src/), with the
tester and the objects of the engine as they are left.  Without toys no distribution is
involved.  With toys, section 4.4: "a caller may pass in a previously built
`SamplingDistribution` to skip regeneration — the engine must not mutate a
shared/reused distribution unless the caller explicitly requests extension", so a
tester that holds a pointer has the test read that object and leaves every object as it
is; a tester that holds none has the engine build a distribution, which is a new object
whose pointer the tester keeps.  The result is `none` when the pointer leads to no
object. -/
def unbinnedTest {P DS R SD D : Type} (E : Externals P DS R SD D)
    (build : BuildDistribution P DS R SD) (k : StatisticKind) (g : RooGoF P DS Nat) (m : P)
    (o : Objects R SD) : Option ((D × D) × RooGoF P DS Nat × Objects R SD) :=
  match g.ntoys with
  | none => some (testOf E k (contents o.store g) m, g, o)
  | some _ =>
    match samplingDist g k with
    | some p =>
      match o.store[p]? with
      | some _ => some (testOf E k (contents o.store g) m, g, o)
      | none => none
    | none =>
      let built := build k (contents o.store g) m o.rng
      let g := keepSamplingDist g k o.store.length
      let store := o.store ++ [built.1]
      some (testOf E k (contents store g) m, g, ⟨store, built.2⟩)

/-- The variables of `testGoF()` that hold or reach sampling distributions: the objects
of the engine, the tester `goftest_unbinned`, the pointers `sd_AD` and `sd_KS`, and the
values filled under `pval_AD_after_toys` and `pval_KS_after_toys`, row by row. -/
structure Recycling (P DS R SD D : Type) where
  objects : Objects R SD
  goftest_unbinned : RooGoF P DS Nat
  sd_AD : Option Nat
  sd_KS : Option Nat
  pval_after_toys : List (D × D)

/-- Lines 108-123 and 146-147 of `testGoF()`: the unbinned tester of the data, its tests
without and with toys, and the two pointers taken from it.  `m` holds the parameter
values after the initial fit. -/
def setupSampling {P DS R SD D : Type} (E : Externals P DS R SD D)
    (build : BuildDistribution P DS R SD) (data : DS) (m : P) (o : Objects R SD) :
    Option (Recycling P DS R SD D) := do
  -- 108-109: RooGoF goftest_unbinned(data,&model,&x); setRange
  let goftest_unbinned : RooGoF P DS Nat := (RooGoF.ofData data).setRange x_getMin x_getMax
  -- 113, 115
  let (_, goftest_unbinned, o) ← unbinnedTest E build .AD goftest_unbinned m o
  let (_, goftest_unbinned, o) ← unbinnedTest E build .KS goftest_unbinned m o
  -- 119: goftest_unbinned.setNtoys(1000,true,NumCPU(4));
  let goftest_unbinned := goftest_unbinned.setNtoys 1000 true
  -- 120, 122
  let (_, goftest_unbinned, o) ← unbinnedTest E build .AD goftest_unbinned m o
  let (_, goftest_unbinned, o) ← unbinnedTest E build .KS goftest_unbinned m o
  -- 146-147
  pure ⟨o, goftest_unbinned, goftest_unbinned.getSamplingDist_AD,
    goftest_unbinned.getSamplingDist_KS, []⟩

/-- The unbinned tests of one trial, lines 215-219 and 236-248, and what line 255 fills
under the two `_after_toys` columns.  `best` is the snapshot, `datatoy` the dataset of
line 203, `fitted` the parameter values that the fit of line 226 leaves; the draw of
line 203 and the fit are not part of this section, their results are its inputs.  The
testers of the trial go out of scope at line 261; by section 3 of the specification a
distribution handed to a tester is shared and stays. -/
def trialSampling {P DS R SD D : Type} (E : Externals P DS R SD D)
    (build : BuildDistribution P DS R SD) (best : P) (datatoy : DS) (fitted : P)
    (v : Recycling P DS R SD D) : Option (Recycling P DS R SD D) := do
  -- 215-216
  let goftesttoy_unbinned : RooGoF P DS Nat :=
    (RooGoF.ofData datatoy).setRange x_getMin x_getMax
  -- 218-219
  let (_, goftesttoy_unbinned, o) ←
    unbinnedTest E build .AD goftesttoy_unbinned best v.objects
  let (_, _, o) ← unbinnedTest E build .KS goftesttoy_unbinned best o
  -- 236, 238
  let goftesttoy2_unbinned : RooGoF P DS Nat :=
    (RooGoF.ofData datatoy).setRange x_getMin x_getMax
  -- 237, 239-242
  let goftesttoy2_unbinned_t : RooGoF P DS Nat :=
    ((((RooGoF.ofData datatoy).setRange x_getMin x_getMax).setNtoys 100 true).setSamplingDist_AD
      v.sd_AD).setSamplingDist_KS v.sd_KS
  -- 244-245
  let (_, goftesttoy2_unbinned, o) ← unbinnedTest E build .AD goftesttoy2_unbinned fitted o
  let (_, _, o) ← unbinnedTest E build .KS goftesttoy2_unbinned fitted o
  -- 247-248
  let (ad, goftesttoy2_unbinned_t, o) ←
    unbinnedTest E build .AD goftesttoy2_unbinned_t fitted o
  let (ks, _, o) ← unbinnedTest E build .KS goftesttoy2_unbinned_t fitted o
  -- 255
  pure { v with objects := o, pval_after_toys := v.pval_after_toys ++ [(ad.1, ks.1)] }

/-- The toy loop as to the sampling distributions: one `trialSampling` per trial, for
the dataset and the fitted parameter values of each trial in turn. -/
def loopSampling {P DS R SD D : Type} (E : Externals P DS R SD D)
    (build : BuildDistribution P DS R SD) (best : P) :
    List (DS × P) → Recycling P DS R SD D → Option (Recycling P DS R SD D)
  | [], v => some v
  | (datatoy, fitted) :: rest, v =>
    (trialSampling E build best datatoy fitted v).bind (loopSampling E build best rest)

/-- The tester `goftest_unbinned` of line 108 once it is set to 1000 toys (line 119),
with the distributions it holds. -/
def sampledTester {P DS SD : Type} (data : DS) (sd_AD sd_KS : Option SD) : RooGoF P DS SD :=
  { hist := none, curve := none, data := some data, range := some (0, 10), rebin := none,
    ntoys := some (1000, true), sd_AD := sd_AD, sd_KS := sd_KS }

/-- The Anderson-Darling distribution that line 120 has the engine build. -/
def builtAD {P DS R SD : Type} (build : BuildDistribution P DS R SD) (data : DS) (m : P)
    (r : R) : SD × R :=
  build .AD (sampledTester data none none) m r

/-- The Kolmogorov-Smirnov distribution that line 122 has the engine build. -/
def builtKS {P DS R SD : Type} (build : BuildDistribution P DS R SD) (data : DS) (m : P)
    (r : R) : SD × R :=
  build .KS (sampledTester data (some (builtAD build data m r).1) none) m
    (builtAD build data m r).2

end Engine

/-! ## A small instance of the externals, for the concrete runs -/

/-- Doubles as the concrete runs need them: a number or NaN. -/
inductive Dbl
  | nan
  | num (n : Int)
  deriving DecidableEq, Repr

/-- Externals over natural numbers.  A dataset is the generator state it was drawn at;
every fit moves the parameter values and reports status 1 (not converged) with four
floated parameters; the unbinned tests return the parameter values they see as their
p-value; the toy-mode tests of lines 120 and 122 store a distribution in the tester and
move the model and the generator. -/
def demo : Externals Nat Nat Nat (List Int) Dbl where
  generate := fun _ _ r => (r, r + 1)
  fitTo := fun m data => (m + data + 1, ⟨1, ["a0", "a1", "sig1frac", "bkgfrac"]⟩)
  ADTest := fun g m => (.num m, .num (if g.ntoys.isSome then 11 else 1))
  KSTest := fun g m => (.num m, .num (if g.ntoys.isSome then 12 else 2))
  ADTest_sampling := fun g m r =>
    ⟨.num 0, .num 0, g.setSamplingDist_AD (some [1, 2, 3]), m + 100, r + 1000⟩
  KSTest_sampling := fun g m r =>
    ⟨.num 0, .num 0, g.setSamplingDist_KS (some [4, 5]), m + 100, r + 1000⟩
  BCChi2Test := fun _ d => (.num 3, .num 30, 50 - d.getD 0)
  RooFitChi2Test := fun _ d => (.num 4, .num 40, 50 - d.getD 0)
  NeymanChi2Test := fun _ d => (.num 5, .num 50, 50 - d.getD 0)
  PearsonChi2Test := fun _ d => (.num 6, .num 60, 50 - d.getD 0)

/-- The state at the loop entry of the concrete runs: parameters 7, generator state 0,
every double NaN. -/
def demoEntry : State Nat Nat Nat (List Int) Dbl :=
  setup demo 7 0 fun _ => .nan

/-! ## One trial in closed form -/

section TrialLemmas

variable {P DS R SD D : Type}

theorem foldl_snoc {α : Type} (l init : List α) :
    l.foldl (fun acc e => acc ++ [e]) init = init ++ l := by
  induction l generalizing init with
  | nil => simp
  | cons a l ih => simp [ih]

theorem trial_model (E : Externals P DS R SD D) (n i : Int) (s : State P DS R SD D) :
    (trial E n i s).model
      = (E.fitTo s.bestFitParams (E.generate s.bestFitParams 1000 s.rng).1).1 := rfl

theorem trial_bestFitParams (E : Externals P DS R SD D) (n i : Int) (s : State P DS R SD D) :
    (trial E n i s).bestFitParams = s.bestFitParams := rfl

theorem trial_rng (E : Externals P DS R SD D) (n i : Int) (s : State P DS R SD D) :
    (trial E n i s).rng = (E.generate s.bestFitParams 1000 s.rng).2 := rfl

theorem trial_d_ndf (E : Externals P DS R SD D) (n i : Int) (s : State P DS R SD D) :
    (trial E n i s).d_ndf = s.d_ndf := rfl

theorem trial_goftest_unbinned (E : Externals P DS R SD D) (n i : Int)
    (s : State P DS R SD D) : (trial E n i s).goftest_unbinned = s.goftest_unbinned := rfl

theorem trial_sd_AD (E : Externals P DS R SD D) (n i : Int) (s : State P DS R SD D) :
    (trial E n i s).sd_AD = s.sd_AD := rfl

theorem trial_sd_KS (E : Externals P DS R SD D) (n i : Int) (s : State P DS R SD D) :
    (trial E n i s).sd_KS = s.sd_KS := rfl

theorem trial_vars (E : Externals P DS R SD D) (n i : Int) (s : State P DS R SD D) :
    (trial E n i s).vars
      = trialVars E s.bestFitParams (E.generate s.bestFitParams 1000 s.rng).1
          (E.fitTo s.bestFitParams (E.generate s.bestFitParams 1000 s.rng).1).1
          s.sd_AD s.sd_KS s.d_ndf := by
  funext v
  cases v <;> rfl

theorem trial_tr (E : Externals P DS R SD D) (n i : Int) (s : State P DS R SD D) :
    (trial E n i s).tr = s.tr ++ [Fill (trial E n i s).vars] := rfl

theorem trial_log (E : Externals P DS R SD D) (n i : Int) (s : State P DS R SD D) :
    (trial E n i s).log
      = s.log ++ trialEvents s.model s.bestFitParams
          (E.fitTo s.bestFitParams (E.generate s.bestFitParams 1000 s.rng).1).1 s.d_ndf := by
  rw [← foldl_snoc]
  rfl

theorem Fill_trialVars (E : Externals P DS R SD D) (best : P) (datatoy : DS) (fitted : P)
    (sd_AD sd_KS : Option SD) (d : Int) :
    Fill (trialVars E best datatoy fitted sd_AD sd_KS d)
      = claimedRow E best datatoy fitted sd_AD sd_KS d := rfl

theorem trialEvents_ops (found best fitted : P) (d : Int) :
    (trialEvents found best fitted d).map Event.op = trialOps d := rfl

end TrialLemmas

/-! ## The loop -/

section LoopLemmas

variable {P DS R SD D : Type}

theorem forLoop_stateAt (E : Externals P DS R SD D) (n : Int) (s : State P DS R SD D)
    (m k : Nat) (hk : (k : Int) + m = n) :
    forLoop E n k (stateAt E n s k) = stateAt E n s (k + m) := by
  induction m generalizing k with
  | zero =>
    rw [forLoop]
    have h : ¬ ((k : Int) < n) := by omega
    simp [h]
  | succ m ih =>
    rw [forLoop]
    have h : (k : Int) < n := by omega
    simp only [h, if_true]
    have := ih (k + 1) (by push_cast; omega)
    rw [show k + (m + 1) = k + 1 + m by omega]
    rw [← this]
    rfl

theorem toyStudy_eq (E : Externals P DS R SD D) (n : Int) (s : State P DS R SD D) :
    toyStudy E n s = stateAt E n s n.toNat := by
  unfold toyStudy
  by_cases h : 0 ≤ n
  · have := forLoop_stateAt E n s n.toNat 0 (by simp [Int.toNat_of_nonneg h])
    simpa using this
  · rw [forLoop]
    have h1 : ¬ ((0 : Int) < n) := by omega
    have h2 : n.toNat = 0 := by omega
    simp [h1, h2, stateAt]

theorem stateAt_bestFitParams (E : Externals P DS R SD D) (n : Int) (s : State P DS R SD D)
    (k : Nat) : (stateAt E n s k).bestFitParams = s.bestFitParams := by
  induction k with
  | zero => rfl
  | succ k ih => simp only [stateAt, trial_bestFitParams, ih]

theorem stateAt_d_ndf (E : Externals P DS R SD D) (n : Int) (s : State P DS R SD D)
    (k : Nat) : (stateAt E n s k).d_ndf = s.d_ndf := by
  induction k with
  | zero => rfl
  | succ k ih => simp only [stateAt, trial_d_ndf, ih]

theorem stateAt_goftest_unbinned (E : Externals P DS R SD D) (n : Int)
    (s : State P DS R SD D) (k : Nat) :
    (stateAt E n s k).goftest_unbinned = s.goftest_unbinned := by
  induction k with
  | zero => rfl
  | succ k ih => simp only [stateAt, trial_goftest_unbinned, ih]

theorem stateAt_sd_AD (E : Externals P DS R SD D) (n : Int) (s : State P DS R SD D)
    (k : Nat) : (stateAt E n s k).sd_AD = s.sd_AD := by
  induction k with
  | zero => rfl
  | succ k ih => simp only [stateAt, trial_sd_AD, ih]

theorem stateAt_sd_KS (E : Externals P DS R SD D) (n : Int) (s : State P DS R SD D)
    (k : Nat) : (stateAt E n s k).sd_KS = s.sd_KS := by
  induction k with
  | zero => rfl
  | succ k ih => simp only [stateAt, trial_sd_KS, ih]

theorem stateAt_rng (E : Externals P DS R SD D) (n : Int) (s : State P DS R SD D)
    (k : Nat) : (stateAt E n s k).rng = rngAt E s k := by
  induction k with
  | zero => rfl
  | succ k ih => simp only [stateAt, trial_rng, ih, stateAt_bestFitParams, rngAt]

theorem stateAt_model (E : Externals P DS R SD D) (n : Int) (s : State P DS R SD D)
    (k : Nat) : (stateAt E n s k).model = foundAt E s k := by
  cases k with
  | zero => rfl
  | succ k =>
    simp only [stateAt, trial_model, stateAt_bestFitParams, stateAt_rng, foundAt, fittedAt,
      datatoyAt]

theorem trial_stateAt_vars (E : Externals P DS R SD D) (n : Int) (s : State P DS R SD D)
    (k : Nat) : (trial E n k (stateAt E n s k)).vars = varsAt E s k := by
  simp only [trial_vars, stateAt_bestFitParams, stateAt_rng, stateAt_sd_AD, stateAt_sd_KS,
    stateAt_d_ndf, varsAt, fittedAt, datatoyAt]

theorem stateAt_tr (E : Externals P DS R SD D) (n : Int) (s : State P DS R SD D)
    (k : Nat) :
    (stateAt E n s k).tr = s.tr ++ (List.range k).map fun j => Fill (varsAt E s j) := by
  induction k with
  | zero => simp [stateAt]
  | succ k ih =>
    rw [stateAt, trial_tr, ih, trial_stateAt_vars, List.range_succ, List.map_append,
      List.append_assoc]
    rfl

theorem stateAt_log (E : Externals P DS R SD D) (n : Int) (s : State P DS R SD D)
    (k : Nat) :
    (stateAt E n s k).log = s.log ++ (List.range k).flatMap fun j =>
      trialEvents (foundAt E s j) s.bestFitParams (fittedAt E s j) s.d_ndf := by
  induction k with
  | zero => simp [stateAt]
  | succ k ih =>
    rw [stateAt, trial_log, ih, List.range_succ, List.flatMap_append, List.append_assoc]
    simp only [stateAt_model, stateAt_bestFitParams, stateAt_rng, stateAt_d_ndf,
      List.flatMap_cons, List.flatMap_nil, List.append_nil, fittedAt, datatoyAt]

theorem setup_tr (E : Externals P DS R SD D) (m0 : P) (r0 : R) (vars0 : Var → D) :
    (setup E m0 r0 vars0).tr = [] := rfl

theorem setup_log (E : Externals P DS R SD D) (m0 : P) (r0 : R) (vars0 : Var → D) :
    (setup E m0 r0 vars0).log = [] := rfl

theorem study_tr (E : Externals P DS R SD D) (m0 : P) (r0 : R) (vars0 : Var → D)
    (n : Int) :
    (toyStudy E n (setup E m0 r0 vars0)).tr
      = (List.range n.toNat).map fun j => Fill (varsAt E (setup E m0 r0 vars0) j) := by
  rw [toyStudy_eq, stateAt_tr, setup_tr, List.nil_append]

theorem study_log (E : Externals P DS R SD D) (m0 : P) (r0 : R) (vars0 : Var → D)
    (n : Int) :
    (toyStudy E n (setup E m0 r0 vars0)).log
      = (List.range n.toNat).flatMap fun j =>
          trialEvents (foundAt E (setup E m0 r0 vars0) j) (setup E m0 r0 vars0).bestFitParams
            (fittedAt E (setup E m0 r0 vars0) j) (setup E m0 r0 vars0).d_ndf := by
  rw [toyStudy_eq, stateAt_log, setup_log, List.nil_append]

theorem study_ops (E : Externals P DS R SD D) (m0 : P) (r0 : R) (vars0 : Var → D)
    (n : Int) :
    (toyStudy E n (setup E m0 r0 vars0)).log.map Event.op
      = (List.range n.toNat).flatMap fun _ => trialOps (setup E m0 r0 vars0).d_ndf := by
  rw [study_log, List.map_flatMap]
  rfl

end LoopLemmas

/-! ## Order in a sequence of operations -/

theorem allBefore_of_split (l₁ l₂ : List Op) (p q : Op → Bool)
    (h₁ : ∀ a ∈ l₁, q a = false) (h₂ : ∀ b ∈ l₂, p b = false) :
    AllBefore (l₁ ++ l₂) p q := by
  intro i j a b hi hj hp hq
  by_contra hij
  by_cases hi1 : i < l₁.length
  · have hj1 : j < l₁.length := by omega
    rw [List.getElem?_append_left hj1] at hj
    have := h₁ b (List.getElem?_mem hj)
    simp [this] at hq
  · rw [List.getElem?_append_right (by omega)] at hi
    have := h₂ a (List.getElem?_mem hi)
    simp [this] at hp

theorem allBefore_at_split (ops : List Op) (k : Nat) (p q : Op → Bool)
    (h₁ : ∀ a ∈ ops.take k, q a = false) (h₂ : ∀ b ∈ ops.drop k, p b = false) :
    AllBefore ops p q := by
  have := allBefore_of_split (ops.take k) (ops.drop k) p q h₁ h₂
  rwa [List.take_append_drop] at this

namespace Engine

/-! ## The sampling distributions as objects: setup and loop in closed form -/

section SamplingLemmas

variable {P DS R SD D : Type}

theorem unbinnedTest_builds (E : Externals P DS R SD D) (build : BuildDistribution P DS R SD)
    (k : StatisticKind) (g : RooGoF P DS Nat) (m : P) (o : Objects R SD) (toys : Nat × Bool)
    (htoys : g.ntoys = some toys) (hnone : samplingDist g k = none) :
    (unbinnedTest E build k g m o).map (fun t => t.2.2.store)
      = some (o.store ++ [(build k (contents o.store g) m o.rng).1]) := by
  simp [unbinnedTest, htoys, hnone]

theorem index_append_pair_fst {α : Type} (l : List α) (a b : α) :
    (l ++ [a, b])[l.length]? = some a := by
  rw [List.getElem?_append_right (le_refl _)]
  simp

theorem index_append_pair_snd {α : Type} (l : List α) (a b : α) :
    (l ++ [a, b])[l.length + 1]? = some b := by
  rw [List.getElem?_append_right (by omega)]
  simp

theorem setupSampling_eq (E : Externals P DS R SD D) (build : BuildDistribution P DS R SD)
    (data : DS) (m : P) (o : Objects R SD) :
    setupSampling E build data m o
      = some ⟨⟨o.store ++ [(builtAD build data m o.rng).1, (builtKS build data m o.rng).1],
            (builtKS build data m o.rng).2⟩,
          sampledTester data (some o.store.length) (some (o.store.length + 1)),
          some o.store.length, some (o.store.length + 1), []⟩ := by
  simp [setupSampling, unbinnedTest, samplingDist, keepSamplingDist, contents, RooGoF.ofData,
    RooGoF.setRange, RooGoF.setNtoys, RooGoF.setSamplingDist_AD, RooGoF.setSamplingDist_KS,
    RooGoF.getSamplingDist_AD, RooGoF.getSamplingDist_KS, builtAD, builtKS, sampledTester,
    x_getMin, x_getMax]

theorem trialSampling_eq (E : Externals P DS R SD D) (build : BuildDistribution P DS R SD)
    (best : P) (datatoy : DS) (fitted : P) (v : Recycling P DS R SD D) (pAD pKS : Nat)
    (dAD dKS : SD) (hAD : v.sd_AD = some pAD) (hKS : v.sd_KS = some pKS)
    (hdAD : v.objects.store[pAD]? = some dAD) (hdKS : v.objects.store[pKS]? = some dKS) :
    trialSampling E build best datatoy fitted v
      = some { v with
          pval_after_toys := v.pval_after_toys ++
            [((E.ADTest (toyTester datatoy (some dAD) (some dKS)) fitted).1,
              (E.KSTest (toyTester datatoy (some dAD) (some dKS)) fitted).1)] } := by
  simp [trialSampling, unbinnedTest, samplingDist, keepSamplingDist, contents, testOf,
    toyTester, RooGoF.ofData, RooGoF.setRange, RooGoF.setNtoys, RooGoF.setSamplingDist_AD,
    RooGoF.setSamplingDist_KS, x_getMin, x_getMax, hAD, hKS, hdAD, hdKS]

theorem loopSampling_eq (E : Externals P DS R SD D) (build : BuildDistribution P DS R SD)
    (best : P) (trials : List (DS × P)) (v : Recycling P DS R SD D) (pAD pKS : Nat)
    (dAD dKS : SD) (hAD : v.sd_AD = some pAD) (hKS : v.sd_KS = some pKS)
    (hdAD : v.objects.store[pAD]? = some dAD) (hdKS : v.objects.store[pKS]? = some dKS) :
    loopSampling E build best trials v
      = some { v with
          pval_after_toys := v.pval_after_toys ++ trials.map fun t =>
            ((E.ADTest (toyTester t.1 (some dAD) (some dKS)) t.2).1,
              (E.KSTest (toyTester t.1 (some dAD) (some dKS)) t.2).1) } := by
  induction trials generalizing v with
  | nil => simp [loopSampling]
  | cons t rest ih =>
    obtain ⟨datatoy, fitted⟩ := t
    rw [loopSampling,
      trialSampling_eq E build best datatoy fitted v pAD pKS dAD dKS hAD hKS hdAD hdKS]
    simp only [Option.some_bind]
    rw [ih { v with
        pval_after_toys := v.pval_after_toys ++
          [((E.ADTest (toyTester datatoy (some dAD) (some dKS)) fitted).1,
            (E.KSTest (toyTester datatoy (some dAD) (some dKS)) fitted).1)] }
      hAD hKS hdAD hdKS]
    simp

end SamplingLemmas

end Engine

/-! ## The claims on the toy study -/

section Claims

variable {P DS R SD D : Type}

/-- C1: for every requested number of trials the loop records exactly one row per
trial.  Every execution of the loop body appends exactly one row, the one filled from
the doubles as that trial leaves them, whatever the externals return; the table after
the loop is the list of the rows of the trials 0, 1, ..., ntoys - 1 in this order; and
it holds `ntoys` rows (`ntoys.toNat` is `ntoys` for `ntoys ≥ 0`). -/
theorem one_row_per_trial (E : Externals P DS R SD D) (m0 : P) (r0 : R) (vars0 : Var → D)
    (ntoys : Int) :
    (∀ (i : Int) (σ : State P DS R SD D),
      (trial E ntoys i σ).tr = σ.tr ++ [Fill (trial E ntoys i σ).vars]) ∧
    (toyStudy E ntoys (setup E m0 r0 vars0)).tr
      = (List.range ntoys.toNat).map (fun i : Nat =>
          Fill (trial E ntoys i (stateAt E ntoys (setup E m0 r0 vars0) i)).vars) ∧
    (toyStudy E ntoys (setup E m0 r0 vars0)).tr.length = ntoys.toNat ∧
    (0 ≤ ntoys → ((toyStudy E ntoys (setup E m0 r0 vars0)).tr.length : Int) = ntoys) := by
  have hlen : (toyStudy E ntoys (setup E m0 r0 vars0)).tr.length = ntoys.toNat := by
    rw [study_tr]; simp
  refine ⟨fun i σ => trial_tr E ntoys i σ, ?_, hlen, fun h => ?_⟩
  · rw [study_tr]
    apply List.map_congr_left
    intro i _
    rw [trial_stateAt_vars]
  · rw [hlen]; exact Int.toNat_of_nonneg h

/-- C10: every column of every row holds the result of its own test, phase and trial.
The table after the loop is, row by row, the row `claimedRow` of the trial: under
`pval_T_phase` and `ts_T_phase` the p-value and statistic of test `T` on the dataset of
the trial, with the model at the snapshot before the fit and at the fitted values after
it, and under the two `_after_toys` columns the p-values of the tester set to use toys.
The dataset of trial `i` is the one the trial itself generates. -/
theorem rows_hold_their_own_results (E : Externals P DS R SD D) (m0 : P) (r0 : R)
    (vars0 : Var → D) (ntoys : Int) :
    (toyStudy E ntoys (setup E m0 r0 vars0)).tr
      = (List.range ntoys.toNat).map (fun i =>
          claimedRow E (setup E m0 r0 vars0).bestFitParams
            (datatoyAt E (setup E m0 r0 vars0) i) (fittedAt E (setup E m0 r0 vars0) i)
            (setup E m0 r0 vars0).sd_AD (setup E m0 r0 vars0).sd_KS
            (setup E m0 r0 vars0).d_ndf) ∧
    (∀ i : Nat,
      ((((stateAt E ntoys (setup E m0 r0 vars0) i).progress ntoys i).assign).generate E).1
        = datatoyAt E (setup E m0 r0 vars0) i) := by
  refine ⟨?_, fun i => ?_⟩
  · rw [study_tr]
    apply List.map_congr_left
    intro i _
    rw [varsAt, Fill_trialVars]
  · show (E.generate (stateAt E ntoys (setup E m0 r0 vars0) i).bestFitParams 1000
      (stateAt E ntoys (setup E m0 r0 vars0) i).rng).1 = _
    rw [stateAt_bestFitParams, stateAt_rng]
    rfl

/-- C3: the model is at the reference snapshot whenever a pseudo-dataset is generated or
a before-fit test runs, whatever the earlier fits left in it.  The snapshot is the
parameter values left by the initial fit; the loop does not change it; each trial
performs seven such operations (the generation and the six before-fit tests), and
every one of them in the log starts with the model at the snapshot. -/
theorem model_at_snapshot_before_fit (E : Externals P DS R SD D) (m0 : P) (r0 : R)
    (vars0 : Var → D) (ntoys : Int) :
    (setup E m0 r0 vars0).bestFitParams = (E.fitTo m0 (E.generate m0 1000 r0).1).1 ∧
    (toyStudy E ntoys (setup E m0 r0 vars0)).bestFitParams
      = (setup E m0 r0 vars0).bestFitParams ∧
    ((toyStudy E ntoys (setup E m0 r0 vars0)).log.filter
      (fun e => e.op.isGenerateOrBefore)).length = 7 * ntoys.toNat ∧
    (∀ e ∈ (toyStudy E ntoys (setup E m0 r0 vars0)).log,
      e.op.isGenerateOrBefore = true → e.model = (setup E m0 r0 vars0).bestFitParams) := by
  refine ⟨rfl, ?_, ?_, ?_⟩
  · rw [toyStudy_eq, stateAt_bestFitParams]
  · rw [study_log]
    generalize ntoys.toNat = n
    induction n with
    | zero => simp
    | succ n ih =>
      rw [List.range_succ, List.flatMap_append, List.filter_append, List.length_append, ih]
      simp [trialEvents, Op.isGenerateOrBefore, Op.isBeforeTest]
      omega
  · intro e he hop
    rw [study_log, List.mem_flatMap] at he
    obtain ⟨j, _, hj⟩ := he
    simp only [trialEvents, List.mem_cons, List.mem_singleton, List.not_mem_nil,
      or_false] at hj
    rcases hj with h | h | h | h | h | h | h | h | h | h | h | h | h | h | h | h | h | h <;>
      subst h <;> first | rfl | (simp [Op.isGenerateOrBefore, Op.isBeforeTest] at hop)

/-- C4, as amended: the operations of every trial are performed in the order of
`trialOps`: reset, generate, the six before-fit tests, the fit, the asymptotic AD and KS
tests, the toy-based AD and KS tests, the asymptotic chi-square tests BC, RooFit,
Neyman, Pearson, and the record.  In this order every before-fit test precedes the
fit, the fit precedes every after-fit test, the asymptotic AD and KS tests precede the
toy-based tests, the toy-based tests precede the asymptotic chi-square tests, and every
test precedes the record. -/
theorem trial_order (E : Externals P DS R SD D) (m0 : P) (r0 : R) (vars0 : Var → D)
    (ntoys : Int) :
    (toyStudy E ntoys (setup E m0 r0 vars0)).log.map Event.op
      = (List.range ntoys.toNat).flatMap (fun _ => trialOps (setup E m0 r0 vars0).d_ndf) ∧
    (∀ d : Int,
      AllBefore (trialOps d) (fun op => op = .assign) (fun op => op = .generate) ∧
      AllBefore (trialOps d) (fun op => op = .generate) Op.isBeforeTest ∧
      AllBefore (trialOps d) Op.isBeforeTest (fun op => op = .fitTo) ∧
      AllBefore (trialOps d) (fun op => op = .fitTo)
        (fun op => op.isAfterAsymptotic || op.isAfterToys) ∧
      AllBefore (trialOps d) (fun op => op.isAfterAsymptotic && !op.isChi2) Op.isAfterToys ∧
      AllBefore (trialOps d) Op.isAfterToys (fun op => op.isAfterAsymptotic && op.isChi2) ∧
      AllBefore (trialOps d) (fun op => op.isAfterAsymptotic || op.isAfterToys)
        (fun op => op = .Fill)) := by
  refine ⟨study_ops E m0 r0 vars0 ntoys, fun d => ⟨?_, ?_, ?_, ?_, ?_, ?_, ?_⟩⟩
  · apply allBefore_at_split _ 1 <;>
      simp [trialOps, Op.isBeforeTest, Op.isAfterAsymptotic, Op.isAfterToys, Op.isChi2]
  · apply allBefore_at_split _ 2 <;>
      simp [trialOps, Op.isBeforeTest, Op.isAfterAsymptotic, Op.isAfterToys, Op.isChi2]
  · apply allBefore_at_split _ 8 <;>
      simp [trialOps, Op.isBeforeTest, Op.isAfterAsymptotic, Op.isAfterToys, Op.isChi2]
  · apply allBefore_at_split _ 9 <;>
      simp [trialOps, Op.isBeforeTest, Op.isAfterAsymptotic, Op.isAfterToys, Op.isChi2]
  · apply allBefore_at_split _ 11 <;>
      simp [trialOps, Op.isBeforeTest, Op.isAfterAsymptotic, Op.isAfterToys, Op.isChi2]
  · apply allBefore_at_split _ 13 <;>
      simp [trialOps, Op.isBeforeTest, Op.isAfterAsymptotic, Op.isAfterToys, Op.isChi2]
  · apply allBefore_at_split _ 17 <;>
      simp [trialOps, Op.isBeforeTest, Op.isAfterAsymptotic, Op.isAfterToys, Op.isChi2]

/-- C4 as stated fails: in a study of one trial the asymptotic after-fit test BC is
operation 13 and the toy-based after-fit test AD is operation 11, so not every
asymptotic after-fit test precedes every toy-based one. -/
theorem asymptotic_after_toys :
    ((toyStudy demo 1 demoEntry).log.map Event.op)[13]?
      = some (.BCChi2Test .pval_BCChi2_after (some 4)) ∧
    ((toyStudy demo 1 demoEntry).log.map Event.op)[11]?
      = some (.ADTest .pval_AD_after_toys true) ∧
    ¬ AllBefore ((toyStudy demo 1 demoEntry).log.map Event.op)
        Op.isAfterAsymptotic Op.isAfterToys := by
  have h : (toyStudy demo 1 demoEntry).log.map Event.op = trialOps 4 := by
    rw [demoEntry, study_ops]
    rfl
  rw [h]
  refine ⟨rfl, rfl, fun hall => ?_⟩
  have := hall 13 11 _ _ rfl rfl rfl rfl
  omega

/-- C9: the four after-fit chi-square tests of every trial are run with the number of
floated fit parameters as their fourth argument, the four before-fit tests with none
subtracted.  `d_ndf` is the number of floating parameters in the result of the initial
fit and the loop does not change it.  In every row the after-fit chi-square columns
hold what BC, RooFit, Neyman and Pearson return when called with exactly this number,
on the tester of the trial after its fit; the same holds of the row that one execution
of the loop body fills from any state, with the `d_ndf` of that state, and `ndf` is
left as the last of these calls returns it.  The before-fit columns hold what the tests
return when called without the fourth argument, which is the call with 0 if the
declaration gives the default 0.  The chi-square calls of the loop are these eight per
trial, in the order of the source. -/
theorem chi2_extra_degrees_of_freedom (E : Externals P DS R SD D) (m0 : P) (r0 : R)
    (vars0 : Var → D) (ntoys : Int) :
    (setup E m0 r0 vars0).d_ndf
      = ((E.fitTo m0 (E.generate m0 1000 r0).1).2.floatParsFinal.length : Int) ∧
    (toyStudy E ntoys (setup E m0 r0 vars0)).d_ndf = (setup E m0 r0 vars0).d_ndf ∧
    (toyStudy E ntoys (setup E m0 r0 vars0)).tr.map
        (fun row => chi2ColumnsAfter.map row.get)
      = (List.range ntoys.toNat).map (fun i =>
          chi2Results E
            (binnedTester (datatoyAt E (setup E m0 r0 vars0) i)
              (fittedAt E (setup E m0 r0 vars0) i))
            (some ((E.fitTo m0 (E.generate m0 1000 r0).1).2.floatParsFinal.length : Int))) ∧
    (∀ (i : Int) (σ : State P DS R SD D),
      chi2ColumnsAfter.map (Fill (trial E ntoys i σ).vars).get
        = chi2Results E
            (binnedTester (E.generate σ.bestFitParams 1000 σ.rng).1
              (E.fitTo σ.bestFitParams (E.generate σ.bestFitParams 1000 σ.rng).1).1)
            (some σ.d_ndf) ∧
      (trial E ntoys i σ).ndf
        = (E.PearsonChi2Test
            (binnedTester (E.generate σ.bestFitParams 1000 σ.rng).1
              (E.fitTo σ.bestFitParams (E.generate σ.bestFitParams 1000 σ.rng).1).1)
            (some σ.d_ndf)).2.2 ∧
      chi2ColumnsBefore.map (Fill (trial E ntoys i σ).vars).get
        = chi2Results E
            (binnedTester (E.generate σ.bestFitParams 1000 σ.rng).1 σ.bestFitParams)
            none) ∧
    (toyStudy E ntoys (setup E m0 r0 vars0)).tr.map
        (fun row => chi2ColumnsBefore.map row.get)
      = (List.range ntoys.toNat).map (fun i =>
          chi2Results E
            (binnedTester (datatoyAt E (setup E m0 r0 vars0) i)
              (setup E m0 r0 vars0).bestFitParams)
            none) ∧
    (DefaultIsZero E →
      (toyStudy E ntoys (setup E m0 r0 vars0)).tr.map
          (fun row => chi2ColumnsBefore.map row.get)
        = (List.range ntoys.toNat).map (fun i =>
            chi2Results E
              (binnedTester (datatoyAt E (setup E m0 r0 vars0) i)
                (setup E m0 r0 vars0).bestFitParams)
              (some 0))) ∧
    ((toyStudy E ntoys (setup E m0 r0 vars0)).log.map Event.op).filter Op.isChi2
      = (List.range ntoys.toNat).flatMap
          (fun _ => trialChi2Calls (setup E m0 r0 vars0).d_ndf) := by
  have hbefore : (toyStudy E ntoys (setup E m0 r0 vars0)).tr.map
        (fun row => chi2ColumnsBefore.map row.get)
      = (List.range ntoys.toNat).map (fun i =>
          chi2Results E
            (binnedTester (datatoyAt E (setup E m0 r0 vars0) i)
              (setup E m0 r0 vars0).bestFitParams)
            none) := by
    rw [study_tr, List.map_map]
    apply List.map_congr_left
    intro i _
    rfl
  refine ⟨rfl, ?_, ?_, fun i σ => ⟨rfl, rfl, rfl⟩, hbefore, fun hdef => ?_, ?_⟩
  · rw [toyStudy_eq, stateAt_d_ndf]
  · rw [study_tr, List.map_map]
    apply List.map_congr_left
    intro i _
    rfl
  · rw [hbefore]
    apply List.map_congr_left
    intro i _
    simp only [chi2Results, (hdef _).1, (hdef _).2.1, (hdef _).2.2.1, (hdef _).2.2.2]
  · rw [study_ops]
    generalize ntoys.toNat = n
    induction n with
    | zero => simp
    | succ n ih =>
      rw [List.range_succ, List.flatMap_append, List.filter_append, ih, List.flatMap_append]
      simp [trialOps, trialChi2Calls, Op.isChi2]

/-- C9 at a concrete input: the declared default is 0 in this instance, the initial fit
floats four parameters, and in a study of two trials the before-fit chi-square columns
of every row hold the results of the calls with 0, the after-fit columns those of the
calls with 4. -/
theorem chi2_extra_degrees_of_freedom_witness :
    DefaultIsZero demo ∧
    demoEntry.d_ndf = 4 ∧
    (toyStudy demo 2 demoEntry).tr.map (fun row => chi2ColumnsBefore.map row.get)
      = (List.range 2).map (fun i =>
          chi2Results demo (binnedTester (datatoyAt demo demoEntry i) demoEntry.bestFitParams)
            (some 0)) ∧
    (toyStudy demo 2 demoEntry).tr.map (fun row => chi2ColumnsAfter.map row.get)
      = (List.range 2).map (fun i =>
          chi2Results demo
            (binnedTester (datatoyAt demo demoEntry i) (fittedAt demo demoEntry i))
            (some 4)) :=
  have hdef : DefaultIsZero demo := fun _ => ⟨rfl, rfl, rfl, rfl⟩
  ⟨hdef, rfl,
    (chi2_extra_degrees_of_freedom demo 7 0 (fun _ => .nan) 2).2.2.2.2.2.1 hdef,
    (chi2_extra_degrees_of_freedom demo 7 0 (fun _ => .nan) 2).2.2.1⟩

/-- C6: the sampling distributions of the toy-based p-values are the ones obtained once
before the loop, and the study never regenerates, replaces or extends them.

On `testGoF.C`, for every collaborator: `sd_AD` and `sd_KS` are read from
`goftest_unbinned` before the loop; no trial writes `goftest_unbinned`, `sd_AD` or
`sd_KS`; and in every row the two `_after_toys` columns hold the p-values of the tester
of that trial that was handed exactly these two.

With the distributions as objects of the engine and the engine handling them as the
specification describes, for the same collaborators, every dataset, every list of
trials and whatever objects exist already: the setup and the loop run through; line 120
and line 122 make the engine build one new object each, to which `sd_AD` and `sd_KS`
point; after the last trial the
objects of the engine (their number and the contents of each) are equal to those before
the first trial, the engine has drawn no toy in the loop, and the two pointers and
`goftest_unbinned` are as before the first trial; and the two toy-based p-values of
every trial are those of the tester `toyTester` of the trial with the two objects built
before the loop, the same tester as in the first part. -/
theorem sampling_distributions_recycled (E : Externals P DS R SD D) (m0 : P) (r0 : R)
    (vars0 : Var → D) (ntoys : Int) :
    ((setup E m0 r0 vars0).sd_AD = (setup E m0 r0 vars0).goftest_unbinned.getSamplingDist_AD ∧
    (setup E m0 r0 vars0).sd_KS = (setup E m0 r0 vars0).goftest_unbinned.getSamplingDist_KS ∧
    (∀ k : Nat,
      (stateAt E ntoys (setup E m0 r0 vars0) k).goftest_unbinned
        = (setup E m0 r0 vars0).goftest_unbinned ∧
      (stateAt E ntoys (setup E m0 r0 vars0) k).sd_AD = (setup E m0 r0 vars0).sd_AD ∧
      (stateAt E ntoys (setup E m0 r0 vars0) k).sd_KS = (setup E m0 r0 vars0).sd_KS) ∧
    (toyStudy E ntoys (setup E m0 r0 vars0)).goftest_unbinned
      = (setup E m0 r0 vars0).goftest_unbinned ∧
    (toyStudy E ntoys (setup E m0 r0 vars0)).sd_AD = (setup E m0 r0 vars0).sd_AD ∧
    (toyStudy E ntoys (setup E m0 r0 vars0)).sd_KS = (setup E m0 r0 vars0).sd_KS ∧
    (toyStudy E ntoys (setup E m0 r0 vars0)).tr.map
        (fun row => (row.get "pval_AD_after_toys", row.get "pval_KS_after_toys"))
      = (List.range ntoys.toNat).map (fun i =>
          (some (E.ADTest
              (toyTester (datatoyAt E (setup E m0 r0 vars0) i) (setup E m0 r0 vars0).sd_AD
                (setup E m0 r0 vars0).sd_KS)
              (fittedAt E (setup E m0 r0 vars0) i)).1,
           some (E.KSTest
              (toyTester (datatoyAt E (setup E m0 r0 vars0) i) (setup E m0 r0 vars0).sd_AD
                (setup E m0 r0 vars0).sd_KS)
              (fittedAt E (setup E m0 r0 vars0) i)).1))) ∧
    (∀ (build : Engine.BuildDistribution P DS R SD) (data : DS) (best : P)
        (o : Engine.Objects R SD) (trials : List (DS × P)),
      ∃ v0 v : Engine.Recycling P DS R SD D,
        Engine.setupSampling E build data best o = some v0 ∧
        Engine.loopSampling E build best trials v0 = some v ∧
        v0.objects.store
          = o.store ++ [(Engine.builtAD build data best o.rng).1,
              (Engine.builtKS build data best o.rng).1] ∧
        v0.sd_AD = some o.store.length ∧
        v0.sd_KS = some (o.store.length + 1) ∧
        v0.sd_AD = v0.goftest_unbinned.getSamplingDist_AD ∧
        v0.sd_KS = v0.goftest_unbinned.getSamplingDist_KS ∧
        v.objects.store = v0.objects.store ∧
        v.objects.rng = v0.objects.rng ∧
        v.sd_AD = v0.sd_AD ∧
        v.sd_KS = v0.sd_KS ∧
        v.goftest_unbinned = v0.goftest_unbinned ∧
        v.pval_after_toys = trials.map (fun t =>
          ((E.ADTest
              (toyTester t.1 (some (Engine.builtAD build data best o.rng).1)
                (some (Engine.builtKS build data best o.rng).1)) t.2).1,
            (E.KSTest
              (toyTester t.1 (some (Engine.builtAD build data best o.rng).1)
                (some (Engine.builtKS build data best o.rng).1)) t.2).1))) := by
  refine ⟨⟨rfl, rfl, fun k => ⟨?_, ?_, ?_⟩, ?_, ?_, ?_, ?_⟩, ?_⟩
  · rw [stateAt_goftest_unbinned]
  · rw [stateAt_sd_AD]
  · rw [stateAt_sd_KS]
  · rw [toyStudy_eq, stateAt_goftest_unbinned]
  · rw [toyStudy_eq, stateAt_sd_AD]
  · rw [toyStudy_eq, stateAt_sd_KS]
  · rw [study_tr, List.map_map]
    apply List.map_congr_left
    intro i _
    rfl
  · intro build data best o trials
    refine ⟨_, _, Engine.setupSampling_eq E build data best o,
      Engine.loopSampling_eq E build best trials _ o.store.length (o.store.length + 1)
        (Engine.builtAD build data best o.rng).1 (Engine.builtKS build data best o.rng).1
        rfl rfl ?_ ?_,
      rfl, rfl, rfl, rfl, rfl, rfl, rfl, rfl, rfl, rfl, rfl⟩
    · exact Engine.index_append_pair_fst _ _ _
    · exact Engine.index_append_pair_snd _ _ _

/-- C2 as stated fails: in this run the fit of trial 0 reports a status other than 0,
and the row of the trial holds the number 2010, not NaN, under `pval_AD_after`. -/
theorem failed_fit_row_not_nan :
    (fitResultAt demo demoEntry 0).status ≠ 0 ∧
    (toyStudy demo 1 demoEntry).tr.map (fun row => row.get "pval_AD_after")
      = [some (Dbl.num 2010)] ∧
    Dbl.num 2010 ≠ Dbl.nan := by
  refine ⟨by decide, ?_, by decide⟩
  rw [demoEntry, study_tr]
  rfl

/-- C2, as amended: in a trial whose fit signals non-convergence the row holds, in every
after-fit column, the value that the test returned with the model at the parameter
values the fit left, and in every before-fit column the value computed before the fit
(the row is `claimedRow`); the study goes on, and the table holds all `ntoys` rows. -/
theorem failed_fit_row (E : Externals P DS R SD D) (m0 : P) (r0 : R) (vars0 : Var → D)
    (ntoys : Int) (i : Nat) (hi : i < ntoys.toNat)
    (hfit : (fitResultAt E (setup E m0 r0 vars0) i).status ≠ 0) :
    (toyStudy E ntoys (setup E m0 r0 vars0)).tr[i]?
      = some (claimedRow E (setup E m0 r0 vars0).bestFitParams
          (datatoyAt E (setup E m0 r0 vars0) i)
          (E.fitTo (setup E m0 r0 vars0).bestFitParams
            (datatoyAt E (setup E m0 r0 vars0) i)).1
          (setup E m0 r0 vars0).sd_AD (setup E m0 r0 vars0).sd_KS
          (setup E m0 r0 vars0).d_ndf) ∧
    (toyStudy E ntoys (setup E m0 r0 vars0)).tr.length = ntoys.toNat := by
  have _ := hfit
  rw [study_tr]
  constructor
  · rw [List.getElem?_map, List.getElem?_range hi]
    rfl
  · simp

/-- The amended C2 at a concrete input: two trials, the fit of trial 0 reports status 1;
the row of trial 0 holds under `pval_AD_after` the p-value 2010 that the test returns
with the model as the fit left it, and the table has both rows. -/
theorem failed_fit_row_witness :
    (0 : Nat) < (2 : Int).toNat ∧ (fitResultAt demo demoEntry 0).status ≠ 0 ∧
    ((toyStudy demo 2 demoEntry).tr[0]?).bind (fun row => row.get "pval_AD_after")
      = some (Dbl.num 2010) ∧
    (toyStudy demo 2 demoEntry).tr.length = 2 :=
  ⟨by decide, by decide,
    by
      rw [demoEntry, (failed_fit_row demo 7 0 (fun _ => .nan) 2 0 (by decide) (by decide)).1]
      rfl,
    (failed_fit_row demo 7 0 (fun _ => .nan) 2 0 (by decide) (by decide)).2⟩

/-- C5, as amended: the tree has 26 branches; their names are those of `codeColumns`:
for each of AD, KS, BCChi2, RooFitChi2, PearsonChi2 and NeymanChi2 the columns
`pval_T_before`, `ts_T_before`, `pval_T_after`, `ts_T_after`, plus `pval_T_after_toys`
for AD and KS, and no others; the names are pairwise distinct; every branch has its own
variable; and every leaf list is the name followed by `/D`, a 64-bit float. -/
theorem column_names :
    (branches.map Branch.name).Perm codeColumns ∧
    (branches.map Branch.name).Nodup ∧
    branches.length = 26 ∧
    (branches.map Branch.address).Nodup ∧
    (∀ b ∈ branches, b.leaflist = b.name ++ "/D") := by
  refine ⟨by decide, by decide, rfl, by decide, by decide⟩

/-- C5 as stated fails: `AD_pvalue_before` is a column name of the specification and no
branch of the tree has this name; in fact no name of the specification is a branch
name. -/
theorem spec_column_names_absent :
    "AD_pvalue_before" ∈ specColumns ∧
    "AD_pvalue_before" ∉ branches.map Branch.name ∧
    (∀ c ∈ specColumns, c ∉ branches.map Branch.name) := by
  refine ⟨by decide, by decide, by decide⟩

end Claims

namespace Engine

/-! ## The claims on the engine as the specification describes it -/

theorem merge_matches (a b : Bin) (ha : a.Matches) (hb : b.Matches) : (a.merge b).Matches := by
  obtain ⟨ha1, ha2⟩ := ha
  obtain ⟨hb1, hb2⟩ := hb
  constructor
  · simp [Bin.merge, ha1, hb1]
  · simp only [Bin.merge]
    linarith

theorem rebinFrom_matches (minExpected : ℚ) (rest : List Bin) :
    ∀ cur : Bin, cur.Matches → (∀ b ∈ rest, b.Matches) →
      ∀ b ∈ rebinFrom minExpected cur rest, b.Matches := by
  induction rest with
  | nil =>
    intro cur hcur _ b hb
    simp only [rebinFrom, List.mem_singleton] at hb
    exact hb ▸ hcur
  | cons x rest ih =>
    intro cur hcur hrest b hb
    have hx : x.Matches := hrest x (List.mem_cons_self _ _)
    have hr : ∀ b ∈ rest, b.Matches := fun b hb => hrest b (List.mem_cons_of_mem _ hb)
    simp only [rebinFrom] at hb
    split at hb
    · exact ih (cur.merge x) (merge_matches cur x hcur hx) hr b hb
    · rcases List.mem_cons.mp hb with h | h
      · exact h ▸ hcur
      · exact ih x hx hr b h

theorem mergeLast_matches (minExpected : ℚ) (l : List Bin) :
    (∀ b ∈ l, b.Matches) → ∀ b ∈ mergeLast minExpected l, b.Matches := by
  induction l using mergeLast.induct minExpected with
  | case1 => intro _ b hb; simp [mergeLast] at hb
  | case2 a => intro h b hb; simpa [mergeLast] using h b (by simpa [mergeLast] using hb)
  | case3 a b hlt =>
    intro h c hc
    simp only [mergeLast, hlt, if_true, List.mem_singleton] at hc
    subst hc
    exact merge_matches a b (h a (by simp)) (h b (by simp))
  | case4 a b hlt =>
    intro h c hc
    simp only [mergeLast, hlt, if_false] at hc
    exact h c hc
  | case5 a b c rest ih =>
    intro h x hx
    simp only [mergeLast, List.mem_cons] at hx
    rcases hx with hx | hx
    · exact hx ▸ h a (by simp)
    · exact ih (fun y hy => h y (List.mem_cons_of_mem _ hy)) x (by simpa using hx)

theorem rebin_matches (minExpected : ℚ) (l : List Bin) (h : ∀ b ∈ l, b.Matches) :
    ∀ b ∈ rebin minExpected l, b.Matches := by
  cases l with
  | nil => intro b hb; simp [rebin] at hb
  | cons a rest =>
    simp only [rebin]
    exact mergeLast_matches minExpected _
      (rebinFrom_matches minExpected rest a (h a (by simp))
        (fun b hb => h b (List.mem_cons_of_mem _ hb)))

theorem pearsonStatistic_matches (bins : List Bin) (h : ∀ b ∈ bins, b.Matches) :
    pearsonStatistic bins = 0 := by
  unfold pearsonStatistic
  apply List.sum_eq_zero
  intro x hx
  obtain ⟨b, hb, rfl⟩ := List.mem_map.mp hx
  simp [(h b hb).1]

theorem upperGammaQ_zero (a : ℝ) (ha : 0 < a) : upperGammaQ a 0 = 1 := by
  unfold upperGammaQ
  rw [← Real.Gamma_eq_integral ha]
  exact div_self (Real.Gamma_pos_of_pos ha).ne'

theorem degreesOfFreedom_pos (n : Nat) (extra : Int) : 1 ≤ degreesOfFreedom n extra :=
  le_max_left _ _

/-- C8: when the observed count equals the expected count (> 0) in every bin and at
least 2 usable bins remain, the Pearson test returns statistic exactly 0, degrees of
freedom `max 1 (numBinsUsed - 1 - extraDegreesOfFreedom)` and p-value 1. -/
theorem pearson_perfect_fit (minExpected : ℚ) (histogram : List Bin)
    (extraDegreesOfFreedom : Int)
    (hmatch : ∀ b ∈ histogram, b.observedCount = b.expectedCount ∧ 0 < b.expectedCount)
    (hbins : 2 ≤ numBinsUsed minExpected histogram) :
    PearsonChi2Test minExpected histogram extraDegreesOfFreedom
      = .ok ⟨1, 0, max 1 ((numBinsUsed minExpected histogram : Int) - 1
          - extraDegreesOfFreedom)⟩ := by
  have hstat : pearsonStatistic (usableBins minExpected histogram) = 0 := by
    apply pearsonStatistic_matches
    intro b hb
    exact rebin_matches minExpected histogram hmatch b (List.mem_of_mem_filter hb)
  have hdf := degreesOfFreedom_pos (numBinsUsed minExpected histogram) extraDegreesOfFreedom
  have hpos : (0 : ℝ) < ((degreesOfFreedom (numBinsUsed minExpected histogram)
      extraDegreesOfFreedom : Int) : ℝ) / 2 := by
    have : (1 : ℝ) ≤ ((degreesOfFreedom (numBinsUsed minExpected histogram)
      extraDegreesOfFreedom : Int) : ℝ) := by exact_mod_cast hdf
    linarith
  unfold PearsonChi2Test
  rw [if_neg (by omega)]
  simp only [hstat, Rat.cast_zero, zero_div, upperGammaQ_zero _ hpos]
  rfl

/-- The concrete scenario of C8: the bins (0,1,10,10), (1,2,10,10), (2,3,10,10), minimum
expected count 5 (the value `testGoF()` sets) and no extra degrees of freedom: the three
bins are kept, and the test gives p-value 1, statistic 0 and 2 degrees of freedom. -/
theorem pearson_perfect_fit_witness :
    (∀ b ∈ [(⟨0, 1, 10, 10⟩ : Bin), ⟨1, 2, 10, 10⟩, ⟨2, 3, 10, 10⟩],
      b.observedCount = b.expectedCount ∧ 0 < b.expectedCount) ∧
    numBinsUsed 5 [⟨0, 1, 10, 10⟩, ⟨1, 2, 10, 10⟩, ⟨2, 3, 10, 10⟩] = 3 ∧
    PearsonChi2Test 5 [⟨0, 1, 10, 10⟩, ⟨1, 2, 10, 10⟩, ⟨2, 3, 10, 10⟩] 0 = .ok ⟨1, 0, 2⟩ := by
  have hn : numBinsUsed 5 [⟨0, 1, 10, 10⟩, ⟨1, 2, 10, 10⟩, ⟨2, 3, 10, 10⟩] = 3 := by
    norm_num [numBinsUsed, usableBins, rebin, rebinFrom, mergeLast]
  have hm : ∀ b ∈ [(⟨0, 1, 10, 10⟩ : Bin), ⟨1, 2, 10, 10⟩, ⟨2, 3, 10, 10⟩],
      b.observedCount = b.expectedCount ∧ 0 < b.expectedCount := by
    norm_num
  have h := pearson_perfect_fit 5 [⟨0, 1, 10, 10⟩, ⟨1, 2, 10, 10⟩, ⟨2, 3, 10, 10⟩] 0 hm
    (by rw [hn]; decide)
  rw [hn] at h
  exact ⟨hm, hn, h⟩

theorem rank_pos (d : SamplingDistribution) (observedStatistic : ℚ) :
    1 ≤ rank d observedStatistic :=
  le_max_left _ _

theorem rank_le (d : SamplingDistribution) (observedStatistic : ℚ) (hn : 1 ≤ d.nToys) :
    rank d observedStatistic ≤ d.nToys :=
  max_le hn (List.length_filter_le _ _)

theorem rank_above (d : SamplingDistribution) (observedStatistic : ℚ)
    (h : ∀ v ∈ d.values, v < observedStatistic) : rank d observedStatistic = 1 := by
  have : d.values.filter (fun v => observedStatistic ≤ v) = [] := by
    rw [List.filter_eq_nil_iff]
    intro v hv
    simpa using h v hv
  simp [rank, this]

theorem rank_below (d : SamplingDistribution) (observedStatistic : ℚ) (hn : 1 ≤ d.nToys)
    (h : ∀ v ∈ d.values, observedStatistic ≤ v) : rank d observedStatistic = d.nToys := by
  have : d.values.filter (fun v => observedStatistic ≤ v) = d.values := by
    rw [List.filter_eq_self]
    intro v hv
    simpa using h v hv
  simp only [rank, this]
  exact max_eq_right hn

/-- C7: for a sampling distribution of nToys ≥ 1 stored values the toy-based p-value
lies between 1/nToys and 1 and is never 0; it is 1/nToys when the observed statistic is
greater than every stored value, and 1 when it is less than or equal to every stored
value; with nToys = 1000 and an observed value above all stored values it is 0.001. -/
theorem toy_pvalue_bounds (d : SamplingDistribution) (observedStatistic : ℚ)
    (hn : 1 ≤ d.nToys) :
    1 / (d.nToys : ℚ) ≤ toyPValue d observedStatistic ∧
    toyPValue d observedStatistic ≤ 1 ∧
    toyPValue d observedStatistic ≠ 0 ∧
    ((∀ v ∈ d.values, v < observedStatistic) →
      toyPValue d observedStatistic = 1 / (d.nToys : ℚ)) ∧
    ((∀ v ∈ d.values, observedStatistic ≤ v) → toyPValue d observedStatistic = 1) ∧
    (d.nToys = 1000 → (∀ v ∈ d.values, v < observedStatistic) →
      toyPValue d observedStatistic = 0.001) := by
  have hpos : (0 : ℚ) < (d.nToys : ℚ) := by exact_mod_cast hn
  have hr1 : (1 : ℚ) ≤ (rank d observedStatistic : ℚ) := by
    exact_mod_cast rank_pos d observedStatistic
  have hr2 : (rank d observedStatistic : ℚ) ≤ (d.nToys : ℚ) := by
    exact_mod_cast rank_le d observedStatistic hn
  have hlow : 1 / (d.nToys : ℚ) ≤ toyPValue d observedStatistic := by
    unfold toyPValue
    exact div_le_div_of_nonneg_right hr1 hpos.le
  refine ⟨hlow, ?_, ?_, ?_, ?_, ?_⟩
  · unfold toyPValue
    rw [div_le_one hpos]
    exact hr2
  · have : (0 : ℚ) < 1 / (d.nToys : ℚ) := by positivity
    exact (lt_of_lt_of_le this hlow).ne'
  · intro h
    unfold toyPValue
    rw [rank_above d observedStatistic h]
    simp
  · intro h
    unfold toyPValue
    rw [rank_below d observedStatistic hn h]
    exact div_self hpos.ne'
  · intro h1000 h
    unfold toyPValue
    rw [rank_above d observedStatistic h, h1000]
    norm_num

/-- The concrete scenario of C7: 1000 stored values, all 0, and the observed statistic 1
above all of them: the p-value is 0.001, not 0. -/
theorem toy_pvalue_bounds_witness :
    1 ≤ SamplingDistribution.nToys ⟨List.replicate 1000 0⟩ ∧
    SamplingDistribution.nToys ⟨List.replicate 1000 0⟩ = 1000 ∧
    (∀ v ∈ (SamplingDistribution.mk (List.replicate 1000 0)).values, v < 1) ∧
    toyPValue ⟨List.replicate 1000 0⟩ 1 = 0.001 ∧
    toyPValue ⟨List.replicate 1000 0⟩ 1 ≠ 0 := by
  have hlen : SamplingDistribution.nToys ⟨List.replicate 1000 0⟩ = 1000 :=
    List.length_replicate _ _
  have hn : 1 ≤ SamplingDistribution.nToys ⟨List.replicate 1000 0⟩ := by
    rw [hlen]; decide
  have habove : ∀ v ∈ (SamplingDistribution.mk (List.replicate 1000 0)).values, v < 1 := by
    intro v hv
    rw [List.eq_of_mem_replicate hv]
    norm_num
  have h := toy_pvalue_bounds ⟨List.replicate 1000 0⟩ 1 hn
  exact ⟨hn, hlen, habove, h.2.2.2.2.2 hlen habove, h.2.2.1⟩

end Engine

end StatComm
